import Mathlib

/-!
# OVN central operator: the object stubs of package `stubs`

A shallow embedding of `stubs/stubs.go`.  The four exported builders
(`OVSDBContainer`, `ServerService`, `PVC`, `BootstrapPod`) and the template
loader `init` are translated line by line.  Kubernetes API types are records holding the fields the
builders read or write plus the neighbouring fields of the same Go struct;
a nested value the builders never look into is carried as a `Blob`.

Conventions:
* a Go `string` is a `String`, a Go `int` is an `Int` (no arithmetic is done
  on it, so no wrap-around can occur);
* a Go slice is a `List`, a nil slice and an empty slice are both `[]`;
* a Go `map[string]T` is an association list with pairwise distinct keys,
  kept in order of first insertion (`StringMap`);
* a Go pointer that may be nil is an `Option`;
* the package-level template variables are an explicit `Templates` state that
  every builder reading them receives and hands back.

The builders are embedded a second time in namespace `Heap`, over an explicit
memory of cells, pointers and slice headers, where writing through a shared
template is expressible; each memory-level builder is proved to return the
object its value-level counterpart computes and to leave every cell that
existed before the call untouched.
-/

set_option linter.dupNamespace false

namespace Stubs

/-! ## Go runtime values -/

/-- Serialized form of a nested API value that the builders only copy. -/
abbrev Blob := String

/-- Canonical text of a `resource.Quantity`, for instance `10Gi`. -/
abbrev Quantity := String

/-- Go `map[string]string` (also `corev1.ResourceList`): distinct keys in
order of first insertion. -/
abbrev StringMap := List (String × String)

/-- Go `m[k] = v`: overwrite the entry of `k` when present, add it otherwise. -/
def StringMap.set : StringMap → String → String → StringMap
  | [], k, v => [(k, v)]
  | (k0, v0) :: rest, k, v =>
    if k0 = k then (k, v) :: rest else (k0, v0) :: StringMap.set rest k v

/-- Go `m[k]` with the comma-ok result. -/
def StringMap.get : StringMap → String → Option String
  | [], _ => none
  | (k0, v0) :: rest, k => if k0 = k then some v0 else StringMap.get rest k

/-- Go `fmt` verbs `%v` and `%d` applied to an `int`: decimal digits, with a
leading minus sign for a negative number. -/
def formatInt : Int → String
  | Int.ofNat n => Nat.repr n
  | Int.negSucc n => "-" ++ Nat.repr (n + 1)

/-! ## Kubernetes API types (`metav1`, `corev1`) -/

structure TypeMeta where
  Kind : String := ""
  APIVersion : String := ""
deriving DecidableEq, Repr

structure OwnerReference where
  APIVersion : String := ""
  Kind : String := ""
  Name : String := ""
  UID : String := ""
  Controller : Option Bool := none
  BlockOwnerDeletion : Option Bool := none
deriving DecidableEq, Repr

structure ObjectMeta where
  Name : String := ""
  GenerateName : String := ""
  Namespace : String := ""
  SelfLink : String := ""
  UID : String := ""
  ResourceVersion : String := ""
  Generation : Int := 0
  CreationTimestamp : Blob := ""
  DeletionTimestamp : Option Blob := none
  DeletionGracePeriodSeconds : Option Int := none
  Labels : StringMap := []
  Annotations : StringMap := []
  OwnerReferences : List OwnerReference := []
  Finalizers : List String := []
  ClusterName : String := ""
  ManagedFields : List Blob := []
deriving DecidableEq, Repr

structure IntOrString where
  Type_ : Int := 0
  IntVal : Int := 0
  StrVal : String := ""
deriving DecidableEq, Repr

structure ServicePort where
  Name : String := ""
  Protocol : String := ""
  Port : Int := 0
  TargetPort : IntOrString := {}
  NodePort : Int := 0
deriving DecidableEq, Repr

structure ServiceSpec where
  Ports : List ServicePort := []
  Selector : StringMap := []
  ClusterIP : String := ""
  Type_ : String := ""
  ExternalIPs : List String := []
  SessionAffinity : String := ""
  LoadBalancerIP : String := ""
  LoadBalancerSourceRanges : List String := []
  ExternalName : String := ""
  ExternalTrafficPolicy : String := ""
  HealthCheckNodePort : Int := 0
  PublishNotReadyAddresses : Bool := false
  SessionAffinityConfig : Option Blob := none
deriving DecidableEq, Repr

structure Service where
  TypeMeta : TypeMeta := {}
  ObjectMeta : ObjectMeta := {}
  Spec : ServiceSpec := {}
  Status : Blob := ""
deriving DecidableEq, Repr

structure ResourceRequirements where
  Limits : StringMap := []
  Requests : StringMap := []
deriving DecidableEq, Repr

structure PersistentVolumeClaimSpec where
  AccessModes : List String := []
  Selector : Option Blob := none
  Resources : ResourceRequirements := {}
  VolumeName : String := ""
  StorageClassName : Option String := none
  VolumeMode : Option String := none
  DataSource : Option Blob := none
deriving DecidableEq, Repr

structure PersistentVolumeClaim where
  TypeMeta : TypeMeta := {}
  ObjectMeta : ObjectMeta := {}
  Spec : PersistentVolumeClaimSpec := {}
  Status : Blob := ""
deriving DecidableEq, Repr

structure EnvVar where
  Name : String := ""
  Value : String := ""
  ValueFrom : Option Blob := none
deriving DecidableEq, Repr

structure ContainerPort where
  Name : String := ""
  HostPort : Int := 0
  ContainerPort : Int := 0
  Protocol : String := ""
  HostIP : String := ""
deriving DecidableEq, Repr

structure VolumeMount where
  Name : String := ""
  ReadOnly : Bool := false
  MountPath : String := ""
  SubPath : String := ""
  MountPropagation : Option String := none
  SubPathExpr : String := ""
deriving DecidableEq, Repr

structure Container where
  Name : String := ""
  Image : String := ""
  Command : List String := []
  Args : List String := []
  WorkingDir : String := ""
  Ports : List ContainerPort := []
  EnvFrom : List Blob := []
  Env : List EnvVar := []
  Resources : ResourceRequirements := {}
  VolumeMounts : List VolumeMount := []
  VolumeDevices : List Blob := []
  LivenessProbe : Option Blob := none
  ReadinessProbe : Option Blob := none
  StartupProbe : Option Blob := none
  Lifecycle : Option Blob := none
  TerminationMessagePath : String := ""
  TerminationMessagePolicy : String := ""
  ImagePullPolicy : String := ""
  SecurityContext : Option Blob := none
  Stdin : Bool := false
  StdinOnce : Bool := false
  TTY : Bool := false
deriving DecidableEq, Repr

structure PersistentVolumeClaimVolumeSource where
  ClaimName : String := ""
  ReadOnly : Bool := false
deriving DecidableEq, Repr

structure VolumeSource where
  HostPath : Option Blob := none
  EmptyDir : Option Blob := none
  Secret : Option Blob := none
  PersistentVolumeClaim : Option PersistentVolumeClaimVolumeSource := none
  ConfigMap : Option Blob := none
deriving DecidableEq, Repr

structure Volume where
  Name : String := ""
  VolumeSource : VolumeSource := {}
deriving DecidableEq, Repr

structure PodSpec where
  Volumes : List Volume := []
  InitContainers : List Container := []
  Containers : List Container := []
  RestartPolicy : String := ""
  TerminationGracePeriodSeconds : Option Int := none
  DNSPolicy : String := ""
  NodeSelector : StringMap := []
  ServiceAccountName : String := ""
  NodeName : String := ""
  HostNetwork : Bool := false
  Hostname : String := ""
  Subdomain : String := ""
deriving DecidableEq, Repr

structure Pod where
  TypeMeta : TypeMeta := {}
  ObjectMeta : ObjectMeta := {}
  Spec : PodSpec := {}
  Status : Blob := ""
deriving DecidableEq, Repr

/-- Value of `corev1.ServiceTypeClusterIP`. -/
def ServiceTypeClusterIP : String := "ClusterIP"

/-- Value of `corev1.ServiceAffinityNone`. -/
def ServiceAffinityNone : String := "None"

/-- Value of `corev1.RestartPolicyNever`. -/
def RestartPolicyNever : String := "Never"

/-- Value of `corev1.ResourceStorage`. -/
def ResourceStorage : String := "storage"

/-- Go `DeepCopy` on a container: an equal value sharing no storage with the
receiver.  Values here are immutable, so the copy is the value. -/
def Container.DeepCopy (c : Container) : Container := c

/-- Go `DeepCopy` on a claim. -/
def PersistentVolumeClaim.DeepCopy (p : PersistentVolumeClaim) : PersistentVolumeClaim := p

/-! ## The custom resource (`api/v1alpha1`) -/

/-- Modelled from the spec: the type declaration `OVNCentralSpec` of package
`api/v1alpha1` is not among the sources.  The spec lists the descriptor as
container image reference, replica count, storage size and storage class;
`StorageClass` is assigned to the claim field `StorageClassName`, a string
pointer, and `StorageSize` is stored as a resource quantity. -/
structure OVNCentralSpec where
  Replicas : Int := 0
  Image : String := ""
  StorageSize : Quantity := ""
  StorageClass : Option String := none
deriving DecidableEq, Repr

/-- Modelled from the spec: the type declaration `OVNCentral` of package
`api/v1alpha1` is not among the sources.  It is the top-level cluster
resource: object metadata (cluster name, namespace, UID) and the descriptor. -/
structure OVNCentral where
  TypeMeta : TypeMeta := {}
  ObjectMeta : ObjectMeta := {}
  Spec : OVNCentralSpec := {}
  Status : Blob := ""
deriving DecidableEq, Repr

/-! ## The ownership linker (`controllerutil`, `apiutil`, `schema`) -/

structure GroupVersion where
  Group : String := ""
  Version : String := ""
deriving DecidableEq, Repr

structure GroupVersionKind where
  Group : String := ""
  Version : String := ""
  Kind : String := ""
deriving DecidableEq, Repr

/-- Modelled from the spec: the schema registry `runtime.Scheme` is declared
outside the sources.  The spec describes it as a mapping from object kind to
API-version metadata; the builders only ever ask it about the owner, so it is
the list of group-version-kinds registered for the Go type `OVNCentral`
(empty when the type is not registered). -/
structure Scheme where
  ovnCentralKinds : List GroupVersionKind := []
deriving DecidableEq, Repr

/-- Rendering of a group and version as an `apiVersion` text: `group/version`,
or the bare version for the empty group. -/
def GroupVersion.String (gv : GroupVersion) : String :=
  if gv.Group.length > 0 then gv.Group ++ "/" ++ gv.Version else gv.Version

/-- Reading an `apiVersion` text back: no slash gives the empty group, one
slash separates group and version, more slashes are an error (`none`). -/
def ParseGroupVersion (gv : String) : Option GroupVersion :=
  if gv.length = 0 ∨ gv = "/" then some {}
  else
    match gv.data.count '/' with
    | 0 => some { Group := "", Version := gv }
    | 1 => some { Group := String.mk (gv.data.takeWhile (fun c => c != '/')),
                  Version := String.mk ((gv.data.dropWhile (fun c => c != '/')).drop 1) }
    | _ => none

/-- Resolution of the owner type in the registry: succeeds exactly when one
group-version-kind is registered for it. -/
def GVKForObject (scheme : Scheme) : Except String GroupVersionKind :=
  match scheme.ovnCentralKinds with
  | [] => .error "no kind is registered for the type v1alpha1.OVNCentral"
  | [gvk] => .ok gvk
  | _ :: _ :: _ => .error "multiple group-version-kinds associated with type v1alpha1.OVNCentral"

/-- A namespaced owner may only own an object of its own namespace. -/
def validateOwner (owner object : ObjectMeta) : Option String :=
  if owner.Namespace ≠ "" then
    if object.Namespace = "" then
      some "cluster-scoped resource must not have a namespace-scoped owner"
    else if owner.Namespace ≠ object.Namespace then
      some "cross-namespace owner references are disallowed"
    else none
  else none

/-- Two references name the same owner when group, kind and name agree. -/
def referSameObject (a b : OwnerReference) : Bool :=
  match ParseGroupVersion a.APIVersion, ParseGroupVersion b.APIVersion with
  | some aGV, some bGV => aGV.Group == bGV.Group && a.Kind == b.Kind && a.Name == b.Name
  | _, _ => false

/-- The reference among `refs` that is marked as controller, if any. -/
def GetControllerOf (object : ObjectMeta) : Option OwnerReference :=
  object.OwnerReferences.find? (fun r => r.Controller == some true)

/-- Position of the first reference naming the same owner as `ref`. -/
def indexOwnerRef : List OwnerReference → OwnerReference → Option Nat
  | [], _ => none
  | r :: rest, ref =>
    if referSameObject r ref then some 0 else (indexOwnerRef rest ref).map (fun i => i + 1)

/-- Replace the reference naming the same owner, or append a new one. -/
def upsertOwnerRef (ref : OwnerReference) (object : ObjectMeta) : ObjectMeta :=
  match indexOwnerRef object.OwnerReferences ref with
  | none => { object with OwnerReferences := object.OwnerReferences ++ [ref] }
  | some idx => { object with OwnerReferences := object.OwnerReferences.set idx ref }

/-- The controller reference that designates `owner` under `gvk`. -/
def controllerRef (owner : OVNCentral) (gvk : GroupVersionKind) : OwnerReference :=
  { APIVersion := GroupVersion.String { Group := gvk.Group, Version := gvk.Version }
    Kind := gvk.Kind
    Name := owner.ObjectMeta.Name
    UID := owner.ObjectMeta.UID
    BlockOwnerDeletion := some true
    Controller := some true }

/-- Modelled from the spec: the ownership linker (the library function
`controllerutil.SetControllerReference`, whose body is not among the sources).
It records on the child a controller-owner reference to `owner`, using the
registry to resolve the kind and API version of the owner; failing to resolve
the owner type is an error and leaves the child unlinked.  The details the
spec leaves open follow the documented behaviour of the library: a reference
to the same owner is replaced and any other is kept, a child that already has
another controller is refused, and so is an owner of another namespace.  The
Go function mutates the child in place and returns an error; here the
metadata of the child is threaded through and the error is the second
component.  On every error path the child is left as it was. -/
def SetControllerReference (owner : OVNCentral) (controlled : ObjectMeta) (scheme : Scheme) :
    ObjectMeta × Option String :=
  match validateOwner owner.ObjectMeta controlled with
  | some err => (controlled, some err)
  | none =>
    match GVKForObject scheme with
    | .error err => (controlled, some err)
    | .ok gvk =>
      let ref := controllerRef owner gvk
      match GetControllerOf controlled with
      | some existing =>
        if !referSameObject existing ref then
          (controlled, some "Object is already owned by another controller")
        else (upsertOwnerRef ref controlled, none)
      | none => (upsertOwnerRef ref controlled, none)

/-! ## Package `stubs` -/

/-- Go constant `dataVolumeName`. -/
def dataVolumeName : String := "data"

/-- The package-level variables `ovsdbContainerTpl`, `pvcTpl` and
`bootstrapContainerTpl`, filled once when the package is loaded. -/
structure Templates where
  ovsdbContainerTpl : Container := {}
  pvcTpl : PersistentVolumeClaim := {}
  bootstrapContainerTpl : Container := {}
deriving DecidableEq, Repr

/-- Go `OVSDBContainer`: a copy of the database-container template with image,
name and command overwritten.  The templates are read, never written. -/
def OVSDBContainer (cr : OVNCentralSpec) (containerName : String)
    (containerCommand : List String) (g : Templates) : Container × Templates :=
  let container := g.ovsdbContainerTpl.DeepCopy
  let container := { container with Image := cr.Image }
  let container := { container with Name := containerName }
  let container := { container with Command := containerCommand }
  (container, g)

/-- Go `commonLabels`: the map literal with keys `app` and `ovn-central`. -/
def commonLabels (cr : OVNCentral) : StringMap :=
  (StringMap.set [] "app" "ovn-central").set "ovn-central" cr.ObjectMeta.Name

/-- Go `ServerService`.  The name is `Sprintf("%s-%v", cr.Name, index)`.  The
error returned by `SetControllerReference` is dropped. -/
def ServerService (cr : OVNCentral) (scheme : Scheme) (index : Int) : Service :=
  let service : Service := {}
  let service := { service with
    ObjectMeta := { service.ObjectMeta with Name := cr.ObjectMeta.Name ++ "-" ++ formatInt index } }
  let service := { service with
    ObjectMeta := { service.ObjectMeta with Namespace := cr.ObjectMeta.Namespace } }
  let service := { service with
    ObjectMeta := { service.ObjectMeta with Labels := commonLabels cr } }
  let service := { service with Spec := { service.Spec with Selector := commonLabels cr } }
  let service := { service with
    Spec := { service.Spec with
      Selector := service.Spec.Selector.set "statefulset.kubernetes.io/pod-name"
        service.ObjectMeta.Name } }
  let service := { service with
    Spec := { service.Spec with
      Ports := [ { Name := "north", Port := 6641 },
                 { Name := "south", Port := 6642 },
                 { Name := "north-raft", Port := 6643 },
                 { Name := "south-raft", Port := 6644 } ] } }
  let service := { service with Spec := { service.Spec with Type_ := ServiceTypeClusterIP } }
  let service := { service with
    Spec := { service.Spec with SessionAffinity := ServiceAffinityNone } }
  let service := { service with
    ObjectMeta := (SetControllerReference cr service.ObjectMeta scheme).1 }
  service

/-- Go `PVC`.  The name is `Sprintf("%s-%s-%d", dataVolumeName, cr.Name, index)`.
The error returned by `SetControllerReference` is dropped. -/
def PVC (cr : OVNCentral) (scheme : Scheme) (index : Int) (g : Templates) :
    PersistentVolumeClaim × Templates :=
  let pvc := g.pvcTpl.DeepCopy
  let pvc := { pvc with
    ObjectMeta := { pvc.ObjectMeta with
      Name := dataVolumeName ++ "-" ++ cr.ObjectMeta.Name ++ "-" ++ formatInt index } }
  let pvc := { pvc with
    ObjectMeta := { pvc.ObjectMeta with Namespace := cr.ObjectMeta.Namespace } }
  let pvc := { pvc with
    Spec := { pvc.Spec with
      Resources := { pvc.Spec.Resources with
        Requests := StringMap.set [] ResourceStorage cr.Spec.StorageSize } } }
  let pvc := { pvc with Spec := { pvc.Spec with StorageClassName := cr.Spec.StorageClass } }
  let pvc := { pvc with ObjectMeta := (SetControllerReference cr pvc.ObjectMeta scheme).1 }
  (pvc, g)

/-- Go `BootstrapPod`.  The environment of the second container is built by
appending to `nbContainer.Env`, as the source does.  The error returned by
`SetControllerReference` is dropped. -/
def BootstrapPod (cr : OVNCentral) (scheme : Scheme) (pvc : PersistentVolumeClaim)
    (g : Templates) : Pod × Templates :=
  let bootstrapPod : Pod := {}
  let bootstrapPod := { bootstrapPod with
    ObjectMeta := { bootstrapPod.ObjectMeta with Name := cr.ObjectMeta.Name ++ "-bootstrap" } }
  let bootstrapPod := { bootstrapPod with
    ObjectMeta := { bootstrapPod.ObjectMeta with Namespace := cr.ObjectMeta.Namespace } }
  let podSpec := bootstrapPod.Spec
  let podSpec := { podSpec with RestartPolicy := RestartPolicyNever }
  let podSpec := { podSpec with
    Volumes := podSpec.Volumes ++
      [ ({ Name := dataVolumeName
           VolumeSource :=
             { PersistentVolumeClaim := some { ClaimName := pvc.ObjectMeta.Name } } } : Volume) ] }
  let nb_address :=
    "tcp:" ++ cr.ObjectMeta.Name ++ "-0." ++ cr.ObjectMeta.Namespace ++ ".svc.cluster.local:6641"
  let nbContainer := g.bootstrapContainerTpl.DeepCopy
  let nbContainer := { nbContainer with Name := "bootstrap-nb" }
  let nbContainer := { nbContainer with Image := cr.Spec.Image }
  let nbContainer := { nbContainer with
    Env := nbContainer.Env ++
      [ ({ Name := "DB_TYPE", Value := "NB" } : EnvVar),
        ({ Name := "ADDRESS", Value := nb_address } : EnvVar) ] }
  let sb_address :=
    "tcp:" ++ cr.ObjectMeta.Name ++ "-0." ++ cr.ObjectMeta.Namespace ++ ".svc.cluster.local:6642"
  let sbContainer := g.bootstrapContainerTpl.DeepCopy
  let sbContainer := { sbContainer with Name := "bootstrap-sb" }
  let sbContainer := { sbContainer with Image := cr.Spec.Image }
  let sbContainer := { sbContainer with
    Env := nbContainer.Env ++
      [ ({ Name := "DB_TYPE", Value := "SB" } : EnvVar),
        ({ Name := "ADDRESS", Value := sb_address } : EnvVar) ] }
  let podSpec := { podSpec with Containers := [nbContainer, sbContainer] }
  let bootstrapPod := { bootstrapPod with Spec := podSpec }
  let bootstrapPod := { bootstrapPod with
    ObjectMeta := (SetControllerReference cr bootstrapPod.ObjectMeta scheme).1 }
  (bootstrapPod, g)

/-! ## Scenario values -/

/-- The descriptor of the concrete scenario: cluster `ovn` in `ovn-ns`. -/
def crOvn : OVNCentral :=
  { ObjectMeta := { Name := "ovn", Namespace := "ovn-ns", UID := "uid-ovn" }
    Spec := { Replicas := 3, Image := "ovn:1.0", StorageSize := "10Gi", StorageClass := some "fast" } }

/-- A registry that resolves the owner type. -/
def schemeOvn : Scheme :=
  { ovnCentralKinds := [ { Group := "ovn-central.openstack.org", Version := "v1alpha1", Kind := "OVNCentral" } ] }

/-- A registry in which the owner type is not registered. -/
def schemeEmpty : Scheme := {}

/-- Templates with every field at its zero value. -/
def tplsZero : Templates := {}

/-- The north address written by `BootstrapPod`. -/
def nbAddress (cr : OVNCentral) : String :=
  "tcp:" ++ cr.ObjectMeta.Name ++ "-0." ++ cr.ObjectMeta.Namespace ++ ".svc.cluster.local:6641"

/-- The south address written by `BootstrapPod`. -/
def sbAddress (cr : OVNCentral) : String :=
  "tcp:" ++ cr.ObjectMeta.Name ++ "-0." ++ cr.ObjectMeta.Namespace ++ ".svc.cluster.local:6642"

/-- A claim as `PVC` builds it for replica 2 of the scenario cluster. -/
def pvcOvn2 : PersistentVolumeClaim := (PVC crOvn schemeOvn 2 tplsZero).1

/-- Templates whose claim template already carries an owner reference (to a
config map `seed`, not marked as controller). -/
def tplsOwned : Templates :=
  { pvcTpl := { ObjectMeta := { OwnerReferences :=
      [ { APIVersion := "v1", Kind := "ConfigMap", Name := "seed", UID := "uid-seed" } ] } } }

/-- Value of a string of decimal digits, read from the left. -/
def readDecimal (cs : List Char) : Nat :=
  cs.foldl (fun acc c => acc * 10 + (c.toNat - 48)) 0

/-! ## Template loading (`init`) -/

/-- The process environment and the library functions that `init` calls:
`os.Getenv` (the empty string for an unset variable), `ioutil.ReadFile`,
`path.Join`, and `yaml.UnmarshalStrict` at the two types it is used at.  A
strict parse starts from the zero value of the target, so its outcome is the
parsed value or an error. -/
structure Host where
  Getenv : String → String
  ReadFile : String → Except String String
  Join : String → String → String
  UnmarshalStrictContainer : String → Except String Container
  UnmarshalStrictPVC : String → Except String PersistentVolumeClaim

/-- The three package-level variables a template file can be parsed into. -/
inductive Target where
  | ovsdbContainerTpl
  | pvcTpl
  | bootstrapContainerTpl
deriving DecidableEq, Repr

/-- Go map literal `yamls` of `init`: file name to the variable it fills. -/
def yamls : List (String × Target) :=
  [ ("ovsdb_container.yaml", Target.ovsdbContainerTpl),
    ("pvc.yaml", Target.pvcTpl),
    ("bootstrap-container.yaml", Target.bootstrapContainerTpl) ]

/-- Go `yaml.UnmarshalStrict(contents, obj)` where `obj` points at one of the
three template variables. -/
def UnmarshalStrict (h : Host) (contents : String) (obj : Target) (g : Templates) :
    Except String Templates :=
  match obj with
  | Target.ovsdbContainerTpl =>
    match h.UnmarshalStrictContainer contents with
    | .error err => .error err
    | .ok c => .ok { g with ovsdbContainerTpl := c }
  | Target.pvcTpl =>
    match h.UnmarshalStrictPVC contents with
    | .error err => .error err
    | .ok c => .ok { g with pvcTpl := c }
  | Target.bootstrapContainerTpl =>
    match h.UnmarshalStrictContainer contents with
    | .error err => .error err
    | .ok c => .ok { g with bootstrapContainerTpl := c }

/-- The `for file, obj := range yamls` loop of `init` over the entries still
to visit; a panic is the `error` result and ends the run. -/
def initLoop (h : Host) (yamlsPath : String) :
    List (String × Target) → Templates → Except String Templates
  | [], g => .ok g
  | (file, obj) :: rest, g =>
    match h.ReadFile (h.Join yamlsPath file) with
    | .error err => .error err
    | .ok contents =>
      match UnmarshalStrict h contents obj g with
      | .error err => .error err
      | .ok g1 => initLoop h yamlsPath rest g1

/-- Go `init`.  Go ranges over a map in an order it does not specify; `order`
is the order of this run, a rearrangement of `yamls`.  The templates start at
their zero values; the result is the loaded templates, or the panic. -/
def init (h : Host) (order : List (String × Target)) : Except String Templates :=
  let yamlsPath := h.Getenv "OPERATOR_YAMLS"
  if yamlsPath = "" then .error "Environment variable OPERATOR_YAMLS is not set"
  else initLoop h yamlsPath order {}

/-- A host where the variable is set and every file reads and parses to the
zero value. -/
def hostOk : Host :=
  { Getenv := fun _ => "/yamls"
    ReadFile := fun _ => .ok ""
    Join := fun a b => a ++ "/" ++ b
    UnmarshalStrictContainer := fun _ => .ok {}
    UnmarshalStrictPVC := fun _ => .ok {} }

/-! ## Sequences of builder calls -/

/-- One call of an exported builder, with its arguments. -/
inductive Call where
  | OVSDBContainer (cr : OVNCentralSpec) (containerName : String)
      (containerCommand : List String)
  | ServerService (cr : OVNCentral) (scheme : Scheme) (index : Int)
  | PVC (cr : OVNCentral) (scheme : Scheme) (index : Int)
  | BootstrapPod (cr : OVNCentral) (scheme : Scheme) (pvc : PersistentVolumeClaim)
deriving DecidableEq, Repr

/-- What a builder call returns. -/
inductive Object where
  | container (c : Container)
  | service (s : Service)
  | claim (p : PersistentVolumeClaim)
  | pod (p : Pod)
deriving DecidableEq, Repr

/-- Perform one call against the templates `g`: the returned object and the
templates afterwards. -/
def Call.run (c : Call) (g : Templates) : Object × Templates :=
  match c with
  | Call.OVSDBContainer cr containerName containerCommand =>
    ((Object.container (Stubs.OVSDBContainer cr containerName containerCommand g).1),
      (Stubs.OVSDBContainer cr containerName containerCommand g).2)
  | Call.ServerService cr scheme index => (Object.service (Stubs.ServerService cr scheme index), g)
  | Call.PVC cr scheme index =>
    (Object.claim (Stubs.PVC cr scheme index g).1, (Stubs.PVC cr scheme index g).2)
  | Call.BootstrapPod cr scheme pvc =>
    (Object.pod (Stubs.BootstrapPod cr scheme pvc g).1, (Stubs.BootstrapPod cr scheme pvc g).2)

/-- A host where the variable `OPERATOR_YAMLS` is not set. -/
def hostUnset : Host :=
  { Getenv := fun _ => ""
    ReadFile := fun _ => .ok ""
    Join := fun a b => a ++ "/" ++ b
    UnmarshalStrictContainer := fun _ => .ok {}
    UnmarshalStrictPVC := fun _ => .ok {} }

/-! ## Values for the naming claims -/

/-- A cluster resource named `a`. -/
def crA : OVNCentral := { ObjectMeta := { Name := "a" } }

/-- A cluster resource named `a-`. -/
def crADash : OVNCentral := { ObjectMeta := { Name := "a-" } }

/-- A second resource named `ovn`, in another namespace. -/
def crOvnOther : OVNCentral := { ObjectMeta := { Name := "ovn", Namespace := "other" } }

/-! ## The builders over shared mutable memory

The same Go functions once more, now with the memory they share made
explicit: the three template variables are cells at fixed addresses, a struct
reached through a pointer is a cell, and the two slices that are appended to or
written through (`Env` of a container, `OwnerReferences` of object metadata)
are headers pointing at backing arrays.  Slices and maps that no builder
writes through stay inside the struct values.  Arguments are only read and
are passed by value. -/

namespace Heap

/-- A Go slice header: pointer to the backing array (`none` for a nil slice),
length and capacity. -/
structure Slice where
  array : Option Nat := none
  len : Nat := 0
  cap : Nat := 0
deriving DecidableEq, Repr

/-- A `corev1.Container` in memory: `fields` holds everything but `Env`
(whose entry in `fields` is not used), `Env` is the slice header. -/
structure ContainerCell where
  fields : Container := {}
  Env : Slice := {}
deriving DecidableEq, Repr

/-- A `corev1.PersistentVolumeClaim` in memory; the owner references of
`fields` are not used, `OwnerReferences` is the slice header. -/
structure ClaimCell where
  fields : PersistentVolumeClaim := {}
  OwnerReferences : Slice := {}
deriving DecidableEq, Repr

/-- A `corev1.Service` in memory. -/
structure ServiceCell where
  fields : Service := {}
  OwnerReferences : Slice := {}
deriving DecidableEq, Repr

/-- A `corev1.Pod` in memory; `Containers` holds the container structs that
were copied into the pod, each with its own `Env` header. -/
structure PodCell where
  fields : Pod := {}
  Containers : List ContainerCell := []
  OwnerReferences : Slice := {}

/-- What one address can hold. -/
inductive Cell where
  | container (c : ContainerCell)
  | claim (c : ClaimCell)
  | service (c : ServiceCell)
  | pod (c : PodCell)
  | envArray (xs : List EnvVar)
  | ownerArray (xs : List OwnerReference)

/-- The memory of the process: the next free address, the cells, and the
capacity the runtime picks when `append` has to grow a slice (given the old
capacity and the length needed). -/
structure Memory where
  next : Nat
  cell : Nat → Option Cell
  growslice : Nat → Nat → Nat

/-- Address of the package-level variable `ovsdbContainerTpl`. -/
def ovsdbContainerTpl : Nat := 0

/-- Address of the package-level variable `pvcTpl`. -/
def pvcTpl : Nat := 1

/-- Address of the package-level variable `bootstrapContainerTpl`. -/
def bootstrapContainerTpl : Nat := 2

/-- Allocate a fresh cell. -/
def Memory.alloc (m : Memory) (c : Cell) : Nat × Memory :=
  (m.next, { m with next := m.next + 1, cell := fun a => if a = m.next then some c else m.cell a })

/-- Overwrite the cell at an address. -/
def Memory.store (m : Memory) (a : Nat) (c : Cell) : Memory :=
  { m with cell := fun b => if b = a then some c else m.cell b }

/-- The container struct a cell holds (the zero value for anything else). -/
def Cell.asContainer : Option Cell → ContainerCell
  | some (Cell.container c) => c
  | _ => {}

/-- The claim struct a cell holds. -/
def Cell.asClaim : Option Cell → ClaimCell
  | some (Cell.claim c) => c
  | _ => {}

/-- The service struct a cell holds. -/
def Cell.asService : Option Cell → ServiceCell
  | some (Cell.service c) => c
  | _ => {}

/-- The pod struct a cell holds. -/
def Cell.asPod : Option Cell → PodCell
  | some (Cell.pod c) => c
  | _ => {}

/-- The backing array of environment entries a cell holds. -/
def Cell.asEnvArray : Option Cell → List EnvVar
  | some (Cell.envArray xs) => xs
  | _ => []

/-- The backing array of owner references a cell holds. -/
def Cell.asOwnerArray : Option Cell → List OwnerReference
  | some (Cell.ownerArray xs) => xs
  | _ => []

/-- The container struct at an address. -/
def Memory.container (m : Memory) (a : Nat) : ContainerCell := Cell.asContainer (m.cell a)

/-- The claim struct at an address. -/
def Memory.claim (m : Memory) (a : Nat) : ClaimCell := Cell.asClaim (m.cell a)

/-- The service struct at an address. -/
def Memory.service (m : Memory) (a : Nat) : ServiceCell := Cell.asService (m.cell a)

/-- The pod struct at an address. -/
def Memory.pod (m : Memory) (a : Nat) : PodCell := Cell.asPod (m.cell a)

/-- The backing array of environment entries at an address. -/
def Memory.envArray (m : Memory) (a : Nat) : List EnvVar := Cell.asEnvArray (m.cell a)

/-- The backing array of owner references at an address. -/
def Memory.ownerArray (m : Memory) (a : Nat) : List OwnerReference :=
  Cell.asOwnerArray (m.cell a)

/-- The elements a slice of environment entries denotes. -/
def Memory.readEnv (m : Memory) (s : Slice) : List EnvVar :=
  match s.array with
  | none => []
  | some a => (m.envArray a).take s.len

/-- The elements a slice of owner references denotes. -/
def Memory.readOwners (m : Memory) (s : Slice) : List OwnerReference :=
  match s.array with
  | none => []
  | some a => (m.ownerArray a).take s.len

/-- The container value a container struct denotes. -/
def Memory.readContainerCell (m : Memory) (c : ContainerCell) : Container :=
  { c.fields with Env := m.readEnv c.Env }

/-- The container value behind a pointer. -/
def Memory.readContainer (m : Memory) (a : Nat) : Container :=
  m.readContainerCell (m.container a)

/-- The claim value behind a pointer. -/
def Memory.readClaim (m : Memory) (a : Nat) : PersistentVolumeClaim :=
  { (m.claim a).fields with
    ObjectMeta := { (m.claim a).fields.ObjectMeta with
      OwnerReferences := m.readOwners (m.claim a).OwnerReferences } }

/-- The service value behind a pointer. -/
def Memory.readService (m : Memory) (a : Nat) : Service :=
  { (m.service a).fields with
    ObjectMeta := { (m.service a).fields.ObjectMeta with
      OwnerReferences := m.readOwners (m.service a).OwnerReferences } }

/-- The pod value behind a pointer. -/
def Memory.readPod (m : Memory) (a : Nat) : Pod :=
  { (m.pod a).fields with
    ObjectMeta := { (m.pod a).fields.ObjectMeta with
      OwnerReferences := m.readOwners (m.pod a).OwnerReferences }
    Spec := { (m.pod a).fields.Spec with
      Containers := (m.pod a).Containers.map m.readContainerCell } }

/-- The values of the three template variables. -/
def Memory.templates (m : Memory) : Templates :=
  { ovsdbContainerTpl := m.readContainer ovsdbContainerTpl
    pvcTpl := m.readClaim pvcTpl
    bootstrapContainerTpl := m.readContainer bootstrapContainerTpl }

/-- Go `append(s, xs...)` on a slice of environment entries: written into the
spare capacity of the backing array when it is large enough, otherwise into a
newly allocated array of the capacity the runtime picks. -/
def Memory.appendEnv (m : Memory) (s : Slice) (xs : List EnvVar) : Slice × Memory :=
  if s.len + xs.length ≤ s.cap then
    match s.array with
    | some a =>
      ({ s with len := s.len + xs.length },
        m.store a (Cell.envArray
          ((m.envArray a).take s.len ++ xs ++ (m.envArray a).drop (s.len + xs.length))))
    | none => (s, m)
  else
    let cap := max (s.len + xs.length) (m.growslice s.cap (s.len + xs.length))
    let r := m.alloc (Cell.envArray
      (m.readEnv s ++ xs ++ List.replicate (cap - (s.len + xs.length)) ({} : EnvVar)))
    ({ array := some r.1, len := s.len + xs.length, cap := cap }, r.2)

/-- Go `append(s, xs...)` on a slice of owner references. -/
def Memory.appendOwners (m : Memory) (s : Slice) (xs : List OwnerReference) : Slice × Memory :=
  if s.len + xs.length ≤ s.cap then
    match s.array with
    | some a =>
      ({ s with len := s.len + xs.length },
        m.store a (Cell.ownerArray
          ((m.ownerArray a).take s.len ++ xs ++ (m.ownerArray a).drop (s.len + xs.length))))
    | none => (s, m)
  else
    let cap := max (s.len + xs.length) (m.growslice s.cap (s.len + xs.length))
    let r := m.alloc (Cell.ownerArray
      (m.readOwners s ++ xs ++ List.replicate (cap - (s.len + xs.length)) ({} : OwnerReference)))
    ({ array := some r.1, len := s.len + xs.length, cap := cap }, r.2)

/-- Modelled from the spec: the clone of a prototype (the generated library
method `(*Container).DeepCopy`, whose body is not among the sources) is a
fully independent value: a new struct holding a copy of the receiver, and,
unless `Env` is nil, a new backing array of exactly `len` entries holding a
copy of the elements. -/
def DeepCopyContainer (m : Memory) (src : Nat) : Nat × Memory :=
  let c := m.container src
  let out := m.alloc (Cell.container c)
  match c.Env.array with
  | none => out
  | some _ =>
    let arr := out.2.alloc (Cell.envArray
      ((m.readEnv c.Env ++ List.replicate c.Env.len ({} : EnvVar)).take c.Env.len))
    (out.1, arr.2.store out.1 (Cell.container
      { c with Env := { array := some arr.1, len := c.Env.len, cap := c.Env.len } }))

/-- Modelled from the spec: the clone of the claim prototype (the generated
library method `(*PersistentVolumeClaim).DeepCopy`), likewise a new struct and
a new backing array for the owner references. -/
def DeepCopyClaim (m : Memory) (src : Nat) : Nat × Memory :=
  let c := m.claim src
  let out := m.alloc (Cell.claim c)
  match c.OwnerReferences.array with
  | none => out
  | some _ =>
    let arr := out.2.alloc (Cell.ownerArray
      ((m.readOwners c.OwnerReferences ++ List.replicate c.OwnerReferences.len ({} : OwnerReference)).take
        c.OwnerReferences.len))
    (out.1, arr.2.store out.1 (Cell.claim
      { c with OwnerReferences :=
          { array := some arr.1, len := c.OwnerReferences.len, cap := c.OwnerReferences.len } }))

/-- Assignment to fields of the container struct behind a pointer. -/
def Memory.setContainer (m : Memory) (a : Nat) (f : ContainerCell → ContainerCell) : Memory :=
  m.store a (Cell.container (f (m.container a)))

/-- Assignment to fields of the claim struct behind a pointer. -/
def Memory.setClaim (m : Memory) (a : Nat) (f : ClaimCell → ClaimCell) : Memory :=
  m.store a (Cell.claim (f (m.claim a)))

/-- Assignment to fields of the service struct behind a pointer. -/
def Memory.setService (m : Memory) (a : Nat) (f : ServiceCell → ServiceCell) : Memory :=
  m.store a (Cell.service (f (m.service a)))

/-- Assignment to fields of the pod struct behind a pointer. -/
def Memory.setPod (m : Memory) (a : Nat) (f : PodCell → PodCell) : Memory :=
  m.store a (Cell.pod (f (m.pod a)))

/-- The library helper `upsertOwnerRef` on the owner references `owners` of
an object: an existing reference to the same owner is overwritten in the
backing array, otherwise the reference is appended.  The result is the slice
the library stores back into the object. -/
def upsertOwnerRef (ref : OwnerReference) (owners : Slice) (m : Memory) : Slice × Memory :=
  match indexOwnerRef (m.readOwners owners) ref with
  | none => m.appendOwners owners [ref]
  | some idx =>
    match owners.array with
    | some a => (owners, m.store a (Cell.ownerArray ((m.ownerArray a).set idx ref)))
    | none => (owners, m)

/-- Modelled from the spec: the ownership linker over memory, the same
library function as `Stubs.SetControllerReference`, acting on the owner
references slice of the controlled object.  It returns the slice the object
is to hold afterwards and the error; on every error path nothing is
written. -/
def SetControllerReference (owner : OVNCentral) (controlled : ObjectMeta) (owners : Slice)
    (scheme : Scheme) (m : Memory) : (Slice × Option String) × Memory :=
  match validateOwner owner.ObjectMeta controlled with
  | some err => ((owners, some err), m)
  | none =>
    match GVKForObject scheme with
    | .error err => ((owners, some err), m)
    | .ok gvk =>
      let ref := controllerRef owner gvk
      match GetControllerOf { controlled with OwnerReferences := m.readOwners owners } with
      | some existing =>
        if !referSameObject existing ref then
          ((owners, some "Object is already owned by another controller"), m)
        else (((upsertOwnerRef ref owners m).1, none), (upsertOwnerRef ref owners m).2)
      | none => (((upsertOwnerRef ref owners m).1, none), (upsertOwnerRef ref owners m).2)

/-- The linker called on a service behind a pointer: on success the slice is
stored back into the object (`SetOwnerReferences`), on error nothing is
written.  The result is the error. -/
def SetControllerReferenceService (owner : OVNCentral) (object : Nat) (scheme : Scheme)
    (m : Memory) : Option String × Memory :=
  let linked := SetControllerReference owner (m.service object).fields.ObjectMeta
    (m.service object).OwnerReferences scheme m
  match linked.1.2 with
  | some err => (some err, linked.2)
  | none => (none, linked.2.setService object (fun c => { c with OwnerReferences := linked.1.1 }))

/-- The linker called on a claim behind a pointer. -/
def SetControllerReferenceClaim (owner : OVNCentral) (object : Nat) (scheme : Scheme)
    (m : Memory) : Option String × Memory :=
  let linked := SetControllerReference owner (m.claim object).fields.ObjectMeta
    (m.claim object).OwnerReferences scheme m
  match linked.1.2 with
  | some err => (some err, linked.2)
  | none => (none, linked.2.setClaim object (fun c => { c with OwnerReferences := linked.1.1 }))

/-- The linker called on a pod behind a pointer. -/
def SetControllerReferencePod (owner : OVNCentral) (object : Nat) (scheme : Scheme)
    (m : Memory) : Option String × Memory :=
  let linked := SetControllerReference owner (m.pod object).fields.ObjectMeta
    (m.pod object).OwnerReferences scheme m
  match linked.1.2 with
  | some err => (some err, linked.2)
  | none => (none, linked.2.setPod object (fun c => { c with OwnerReferences := linked.1.1 }))

/-- Go `OVSDBContainer` over memory: the result is the pointer returned. -/
def OVSDBContainer (cr : OVNCentralSpec) (containerName : String)
    (containerCommand : List String) (m : Memory) : Nat × Memory :=
  let copy := DeepCopyContainer m ovsdbContainerTpl
  let container := copy.1
  let m := copy.2
  let m := m.setContainer container (fun c => { c with fields := { c.fields with Image := cr.Image } })
  let m := m.setContainer container
    (fun c => { c with fields := { c.fields with Name := containerName } })
  let m := m.setContainer container
    (fun c => { c with fields := { c.fields with Command := containerCommand } })
  (container, m)

/-- Go `ServerService` over memory.  The error of the linker is dropped. -/
def ServerService (cr : OVNCentral) (scheme : Scheme) (index : Int) (m : Memory) :
    Nat × Memory :=
  let new := m.alloc (Cell.service {})
  let service := new.1
  let m := new.2
  let m := m.setService service (fun c => { c with fields := { c.fields with
    ObjectMeta := { c.fields.ObjectMeta with
      Name := cr.ObjectMeta.Name ++ "-" ++ formatInt index } } })
  let m := m.setService service (fun c => { c with fields := { c.fields with
    ObjectMeta := { c.fields.ObjectMeta with Namespace := cr.ObjectMeta.Namespace } } })
  let m := m.setService service (fun c => { c with fields := { c.fields with
    ObjectMeta := { c.fields.ObjectMeta with Labels := commonLabels cr } } })
  let m := m.setService service (fun c => { c with fields := { c.fields with
    Spec := { c.fields.Spec with Selector := commonLabels cr } } })
  let m := m.setService service (fun c => { c with fields := { c.fields with
    Spec := { c.fields.Spec with
      Selector := c.fields.Spec.Selector.set "statefulset.kubernetes.io/pod-name"
        c.fields.ObjectMeta.Name } } })
  let m := m.setService service (fun c => { c with fields := { c.fields with
    Spec := { c.fields.Spec with
      Ports := [ { Name := "north", Port := 6641 },
                 { Name := "south", Port := 6642 },
                 { Name := "north-raft", Port := 6643 },
                 { Name := "south-raft", Port := 6644 } ] } } })
  let m := m.setService service (fun c => { c with fields := { c.fields with
    Spec := { c.fields.Spec with Type_ := ServiceTypeClusterIP } } })
  let m := m.setService service (fun c => { c with fields := { c.fields with
    Spec := { c.fields.Spec with SessionAffinity := ServiceAffinityNone } } })
  let m := (SetControllerReferenceService cr service scheme m).2
  (service, m)

/-- Go `PVC` over memory.  The error of the linker is dropped. -/
def PVC (cr : OVNCentral) (scheme : Scheme) (index : Int) (m : Memory) : Nat × Memory :=
  let copy := DeepCopyClaim m pvcTpl
  let pvc := copy.1
  let m := copy.2
  let m := m.setClaim pvc (fun c => { c with fields := { c.fields with
    ObjectMeta := { c.fields.ObjectMeta with
      Name := dataVolumeName ++ "-" ++ cr.ObjectMeta.Name ++ "-" ++ formatInt index } } })
  let m := m.setClaim pvc (fun c => { c with fields := { c.fields with
    ObjectMeta := { c.fields.ObjectMeta with Namespace := cr.ObjectMeta.Namespace } } })
  let m := m.setClaim pvc (fun c => { c with fields := { c.fields with
    Spec := { c.fields.Spec with
      Resources := { c.fields.Spec.Resources with
        Requests := StringMap.set [] ResourceStorage cr.Spec.StorageSize } } } })
  let m := m.setClaim pvc (fun c => { c with fields := { c.fields with
    Spec := { c.fields.Spec with StorageClassName := cr.Spec.StorageClass } } })
  let m := (SetControllerReferenceClaim cr pvc scheme m).2
  (pvc, m)

/-- Go `BootstrapPod` over memory.  The second `append` is applied to
`nbContainer.Env`, as in the source, and may write into the spare capacity of
the array the first `append` allocated. -/
def BootstrapPod (cr : OVNCentral) (scheme : Scheme) (pvc : PersistentVolumeClaim)
    (m : Memory) : Nat × Memory :=
  let new := m.alloc (Cell.pod {})
  let bootstrapPod := new.1
  let m := new.2
  let m := m.setPod bootstrapPod (fun c => { c with fields := { c.fields with
    ObjectMeta := { c.fields.ObjectMeta with Name := cr.ObjectMeta.Name ++ "-bootstrap" } } })
  let m := m.setPod bootstrapPod (fun c => { c with fields := { c.fields with
    ObjectMeta := { c.fields.ObjectMeta with Namespace := cr.ObjectMeta.Namespace } } })
  let m := m.setPod bootstrapPod (fun c => { c with fields := { c.fields with
    Spec := { c.fields.Spec with RestartPolicy := RestartPolicyNever } } })
  let m := m.setPod bootstrapPod (fun c => { c with fields := { c.fields with
    Spec := { c.fields.Spec with
      Volumes := c.fields.Spec.Volumes ++
        [ ({ Name := dataVolumeName
             VolumeSource :=
               { PersistentVolumeClaim := some { ClaimName := pvc.ObjectMeta.Name } } } :
            Volume) ] } } })
  let nb_address :=
    "tcp:" ++ cr.ObjectMeta.Name ++ "-0." ++ cr.ObjectMeta.Namespace ++ ".svc.cluster.local:6641"
  let nbCopy := DeepCopyContainer m bootstrapContainerTpl
  let nbContainer := nbCopy.1
  let m := nbCopy.2
  let m := m.setContainer nbContainer
    (fun c => { c with fields := { c.fields with Name := "bootstrap-nb" } })
  let m := m.setContainer nbContainer
    (fun c => { c with fields := { c.fields with Image := cr.Spec.Image } })
  let nbEnv := m.appendEnv (m.container nbContainer).Env
    [ ({ Name := "DB_TYPE", Value := "NB" } : EnvVar),
      ({ Name := "ADDRESS", Value := nb_address } : EnvVar) ]
  let m := nbEnv.2.setContainer nbContainer (fun c => { c with Env := nbEnv.1 })
  let sb_address :=
    "tcp:" ++ cr.ObjectMeta.Name ++ "-0." ++ cr.ObjectMeta.Namespace ++ ".svc.cluster.local:6642"
  let sbCopy := DeepCopyContainer m bootstrapContainerTpl
  let sbContainer := sbCopy.1
  let m := sbCopy.2
  let m := m.setContainer sbContainer
    (fun c => { c with fields := { c.fields with Name := "bootstrap-sb" } })
  let m := m.setContainer sbContainer
    (fun c => { c with fields := { c.fields with Image := cr.Spec.Image } })
  let sbEnv := m.appendEnv (m.container nbContainer).Env
    [ ({ Name := "DB_TYPE", Value := "SB" } : EnvVar),
      ({ Name := "ADDRESS", Value := sb_address } : EnvVar) ]
  let m := sbEnv.2.setContainer sbContainer (fun c => { c with Env := sbEnv.1 })
  let m := m.setPod bootstrapPod (fun c => { c with
    Containers := [m.container nbContainer, m.container sbContainer] })
  let m := (SetControllerReferencePod cr bootstrapPod scheme m).2
  (bootstrapPod, m)

/-- The memory `m` with the cell at `a` replaced and the next free address
set to `n`. -/
def Memory.put (m : Memory) (a : Nat) (c : Cell) (n : Nat) : Memory :=
  { next := n, cell := fun b => if b = a then some c else m.cell b, growslice := m.growslice }

/-- A slice that is nil, or whose backing array holds exactly its elements and
was allocated before `m.next`: what a new object or a deep copy holds. -/
def Memory.tightOwners (m : Memory) (s : Slice) : Prop :=
  match s.array with
  | none => s.len = 0 ∧ s.cap = 0
  | some a => a < m.next ∧ (m.ownerArray a).length = s.len ∧ s.cap = s.len

/-- A slice of environment entries is well formed in `m`: nil with length
and capacity 0, or pointing at an allocated array that holds its elements. -/
def Memory.envOk (m : Memory) (s : Slice) : Prop :=
  match s.array with
  | none => s.len = 0 ∧ s.cap = 0
  | some a => a < m.next ∧ s.len ≤ (m.envArray a).length

/-- A slice of owner references is well formed in `m`. -/
def Memory.ownersOk (m : Memory) (s : Slice) : Prop :=
  match s.array with
  | none => s.len = 0 ∧ s.cap = 0
  | some a => a < m.next ∧ s.len ≤ (m.ownerArray a).length

/-- The memory holds the three template variables: their addresses are
allocated and their slices are well formed. -/
def Memory.Loaded (m : Memory) : Prop :=
  3 ≤ m.next ∧
  m.envOk (m.container ovsdbContainerTpl).Env ∧
  m.ownersOk (m.claim pvcTpl).OwnerReferences ∧
  m.envOk (m.container bootstrapContainerTpl).Env

/-- Perform one call of a builder against the memory: the pointer returned
and the memory afterwards. -/
def run (c : Call) (m : Memory) : Nat × Memory :=
  match c with
  | Call.OVSDBContainer cr containerName containerCommand =>
    OVSDBContainer cr containerName containerCommand m
  | Call.ServerService cr scheme index => ServerService cr scheme index m
  | Call.PVC cr scheme index => PVC cr scheme index m
  | Call.BootstrapPod cr scheme pvc => BootstrapPod cr scheme pvc m

/-- The object behind the pointer that the call `c` returned. -/
def readResult (c : Call) (m : Memory) (a : Nat) : Object :=
  match c with
  | Call.OVSDBContainer _ _ _ => Object.container (m.readContainer a)
  | Call.ServerService _ _ _ => Object.service (m.readService a)
  | Call.PVC _ _ _ => Object.claim (m.readClaim a)
  | Call.BootstrapPod _ _ _ => Object.pod (m.readPod a)

/-- Perform a sequence of calls, oldest first: the memory afterwards. -/
def runAll : List Call → Memory → Memory
  | [], m => m
  | c :: rest, m => runAll rest (run c m).2

/-- The memory right after template loading, for given template values: the
three variables at their addresses, each slice over an array that holds
exactly its elements. -/
def Memory.ofTemplates (g : Templates) (growslice : Nat → Nat → Nat) : Memory :=
  { next := 6
    growslice := growslice
    cell := fun a =>
      if a = 0 then
        some (Cell.container
          { fields := g.ovsdbContainerTpl
            Env := { array := some 3, len := g.ovsdbContainerTpl.Env.length,
                     cap := g.ovsdbContainerTpl.Env.length } })
      else if a = 1 then
        some (Cell.claim
          { fields := g.pvcTpl
            OwnerReferences :=
              { array := some 4, len := g.pvcTpl.ObjectMeta.OwnerReferences.length,
                cap := g.pvcTpl.ObjectMeta.OwnerReferences.length } })
      else if a = 2 then
        some (Cell.container
          { fields := g.bootstrapContainerTpl
            Env := { array := some 5, len := g.bootstrapContainerTpl.Env.length,
                     cap := g.bootstrapContainerTpl.Env.length } })
      else if a = 3 then some (Cell.envArray g.ovsdbContainerTpl.Env)
      else if a = 4 then some (Cell.ownerArray g.pvcTpl.ObjectMeta.OwnerReferences)
      else if a = 5 then some (Cell.envArray g.bootstrapContainerTpl.Env)
      else none }

/-- A memory as template loading may leave it: the database-container
template with one environment entry in an array of capacity 4, the claim
template with one owner reference, the bootstrap-container template with one
environment entry in an array of capacity 4; when `append` has to grow a
slice it allocates twice the length needed. -/
def demoMemory : Memory :=
  { next := 6
    growslice := fun _ need => 2 * need
    cell := fun a =>
      if a = 0 then
        some (Cell.container { fields := { Name := "ovsdb" }, Env := { array := some 3, len := 1, cap := 4 } })
      else if a = 1 then
        some (Cell.claim { fields := { Spec := { AccessModes := ["ReadWriteOnce"] } }
                           OwnerReferences := { array := some 4, len := 1, cap := 1 } })
      else if a = 2 then
        some (Cell.container { fields := { Name := "bootstrap" }, Env := { array := some 5, len := 1, cap := 4 } })
      else if a = 3 then
        some (Cell.envArray [{ Name := "OVN_LOG", Value := "info" }, {}, {}, {}])
      else if a = 4 then
        some (Cell.ownerArray [{ APIVersion := "v1", Kind := "ConfigMap", Name := "seed", UID := "uid-seed" }])
      else if a = 5 then
        some (Cell.envArray [{ Name := "OVN_RUNDIR", Value := "/ovn" }, {}, {}, {}])
      else none }

/-- The call whose result is compared: the bootstrap pod of the scenario
cluster. -/
def demoCall : Call := Call.BootstrapPod crOvn schemeOvn pvcOvn2

/-- Calls made before it: a claim, a database container and a bootstrap pod. -/
def demoEarlier : List Call :=
  [ Call.PVC crOvn schemeOvn 0,
    Call.OVSDBContainer crOvn.Spec "ovsdb-nb" ["/usr/bin/start-nb"],
    Call.BootstrapPod crOvn schemeOvn pvcOvn2 ]

/-- A reference to the config map `seed` with another UID: it names the same
owner as the reference in the claim template of `demoMemory`. -/
def demoRef : OwnerReference :=
  { APIVersion := "v1", Kind := "ConfigMap", Name := "seed", UID := "uid-other" }

end Heap

/-! ## Auxiliary facts: the ownership linker only touches owner references -/

theorem upsertOwnerRef_frame (ref : OwnerReference) (m : ObjectMeta) :
    upsertOwnerRef ref m =
      { m with OwnerReferences := (upsertOwnerRef ref m).OwnerReferences } := by
  unfold upsertOwnerRef
  split <;> rfl

theorem SetControllerReference_frame (cr : OVNCentral) (m : ObjectMeta) (scheme : Scheme) :
    (SetControllerReference cr m scheme).1 =
      { m with OwnerReferences := (SetControllerReference cr m scheme).1.OwnerReferences } := by
  unfold SetControllerReference
  split
  · rfl
  · split
    · rfl
    · dsimp only
      split
      · split
        · rfl
        · exact upsertOwnerRef_frame _ _
      · exact upsertOwnerRef_frame _ _

theorem SetControllerReference_Name (cr : OVNCentral) (m : ObjectMeta) (scheme : Scheme) :
    (SetControllerReference cr m scheme).1.Name = m.Name :=
  by rw [SetControllerReference_frame]

theorem SetControllerReference_Namespace (cr : OVNCentral) (m : ObjectMeta) (scheme : Scheme) :
    (SetControllerReference cr m scheme).1.Namespace = m.Namespace :=
  by rw [SetControllerReference_frame]

theorem SetControllerReference_Labels (cr : OVNCentral) (m : ObjectMeta) (scheme : Scheme) :
    (SetControllerReference cr m scheme).1.Labels = m.Labels :=
  by rw [SetControllerReference_frame]

theorem commonLabels_eq (cr : OVNCentral) :
    commonLabels cr = [("app", "ovn-central"), ("ovn-central", cr.ObjectMeta.Name)] := by
  simp [commonLabels, StringMap.set]

/-! ## Claims about `ServerService` -/

/-- C1: for every cluster resource and every index, the service built by
`ServerService` is named cluster name, dash, decimal index; lives in the
namespace of the resource; is labelled with exactly the two common labels;
and selects on exactly those two labels plus the pod-name label carrying the
name of the service itself, three entries in all.  For cluster `ovn` in
`ovn-ns` and index 0 the name is `ovn-0` and the selector is the expected
three-entry map. -/
theorem ServerService_identity (cr : OVNCentral) (scheme : Scheme) (index : Int) :
    (ServerService cr scheme index).ObjectMeta.Name
        = cr.ObjectMeta.Name ++ "-" ++ formatInt index ∧
    (ServerService cr scheme index).ObjectMeta.Namespace = cr.ObjectMeta.Namespace ∧
    (ServerService cr scheme index).ObjectMeta.Labels
        = [("app", "ovn-central"), ("ovn-central", cr.ObjectMeta.Name)] ∧
    (ServerService cr scheme index).Spec.Selector
        = [("app", "ovn-central"), ("ovn-central", cr.ObjectMeta.Name),
           ("statefulset.kubernetes.io/pod-name", (ServerService cr scheme index).ObjectMeta.Name)] ∧
    (ServerService cr scheme index).Spec.Selector.length = 3 ∧
    (ServerService crOvn schemeOvn 0).ObjectMeta.Name = "ovn-0" ∧
    (ServerService crOvn schemeOvn 0).ObjectMeta.Namespace = "ovn-ns" ∧
    (ServerService crOvn schemeOvn 0).Spec.Selector
        = [("app", "ovn-central"), ("ovn-central", "ovn"),
           ("statefulset.kubernetes.io/pod-name", "ovn-0")] := by
  refine ⟨?_, ?_, ?_, ?_, ?_, ?_, ?_, ?_⟩
  · simp [ServerService, SetControllerReference_Name]
  · simp [ServerService, SetControllerReference_Namespace]
  · simp [ServerService, SetControllerReference_Labels, commonLabels_eq]
  · simp [ServerService, SetControllerReference_Name, commonLabels_eq, StringMap.set]
  · simp [ServerService, commonLabels_eq, StringMap.set]
  · decide
  · decide
  · decide

/-- C9: for every cluster resource and every index, the service exposes
exactly the four ports north 6641, south 6642, north-raft 6643 and
south-raft 6644, in that order, has type ClusterIP and session affinity None;
the right-hand sides mention neither the resource nor the index. -/
theorem ServerService_ports_fixed (cr : OVNCentral) (scheme : Scheme) (index : Int) :
    (ServerService cr scheme index).Spec.Ports
        = [ { Name := "north", Port := 6641 }, { Name := "south", Port := 6642 },
            { Name := "north-raft", Port := 6643 }, { Name := "south-raft", Port := 6644 } ] ∧
    (ServerService cr scheme index).Spec.Ports.map (fun p => (p.Name, p.Port))
        = [("north", 6641), ("south", 6642), ("north-raft", 6643), ("south-raft", 6644)] ∧
    (ServerService cr scheme index).Spec.Type_ = "ClusterIP" ∧
    (ServerService cr scheme index).Spec.SessionAffinity = "None" := by
  refine ⟨?_, ?_, ?_, ?_⟩
  · simp [ServerService]
  · simp [ServerService]
  · simp [ServerService, ServiceTypeClusterIP]
  · simp [ServerService, ServiceAffinityNone]

/-! ## Claims about `OVSDBContainer` and `PVC` -/

/-- C10: for every descriptor, container name, command and loaded
database-container template, `OVSDBContainer` returns a container with the
image of the descriptor, the given name and the given command; putting the
three template values back yields the template, so every other field (args,
environment, ports, volume mounts, probes and the rest) is the one of the
template; and the stored templates are the same after the call. -/
theorem OVSDBContainer_overrides_three_fields (cr : OVNCentralSpec) (containerName : String)
    (containerCommand : List String) (g : Templates) :
    (OVSDBContainer cr containerName containerCommand g).1.Image = cr.Image ∧
    (OVSDBContainer cr containerName containerCommand g).1.Name = containerName ∧
    (OVSDBContainer cr containerName containerCommand g).1.Command = containerCommand ∧
    { (OVSDBContainer cr containerName containerCommand g).1 with
        Image := g.ovsdbContainerTpl.Image
        Name := g.ovsdbContainerTpl.Name
        Command := g.ovsdbContainerTpl.Command } = g.ovsdbContainerTpl ∧
    (OVSDBContainer cr containerName containerCommand g).1.Args = g.ovsdbContainerTpl.Args ∧
    (OVSDBContainer cr containerName containerCommand g).1.Env = g.ovsdbContainerTpl.Env ∧
    (OVSDBContainer cr containerName containerCommand g).1.Ports = g.ovsdbContainerTpl.Ports ∧
    (OVSDBContainer cr containerName containerCommand g).1.VolumeMounts
        = g.ovsdbContainerTpl.VolumeMounts ∧
    (OVSDBContainer cr containerName containerCommand g).1.LivenessProbe
        = g.ovsdbContainerTpl.LivenessProbe ∧
    (OVSDBContainer cr containerName containerCommand g).1.ReadinessProbe
        = g.ovsdbContainerTpl.ReadinessProbe ∧
    (OVSDBContainer cr containerName containerCommand g).2 = g := by
  refine ⟨rfl, rfl, rfl, rfl, rfl, rfl, rfl, rfl, rfl, rfl, rfl⟩

/-- C7: for every cluster resource, index and loaded claim template, `PVC`
returns a claim named `data-`, cluster name, dash, decimal index, in the
namespace of the resource, whose storage requests are exactly the one-entry
map from `storage` to the storage size of the descriptor (whatever requests
the template had), and whose storage class is the one of the descriptor;
putting the template values back into name, namespace, owner references,
requests and storage class yields the template, so every other field is the
one of the template.  For cluster `ovn`, index 0, size 10Gi and class fast the
claim is named `data-ovn-0` and requests 10Gi of class fast. -/
theorem PVC_fields (cr : OVNCentral) (scheme : Scheme) (index : Int) (g : Templates) :
    (PVC cr scheme index g).1.ObjectMeta.Name
        = "data-" ++ cr.ObjectMeta.Name ++ "-" ++ formatInt index ∧
    (PVC cr scheme index g).1.ObjectMeta.Namespace = cr.ObjectMeta.Namespace ∧
    (PVC cr scheme index g).1.Spec.Resources.Requests = [("storage", cr.Spec.StorageSize)] ∧
    (PVC cr scheme index g).1.Spec.StorageClassName = cr.Spec.StorageClass ∧
    { (PVC cr scheme index g).1 with
        ObjectMeta := { (PVC cr scheme index g).1.ObjectMeta with
          Name := g.pvcTpl.ObjectMeta.Name
          Namespace := g.pvcTpl.ObjectMeta.Namespace
          OwnerReferences := g.pvcTpl.ObjectMeta.OwnerReferences }
        Spec := { (PVC cr scheme index g).1.Spec with
          Resources := { (PVC cr scheme index g).1.Spec.Resources with
            Requests := g.pvcTpl.Spec.Resources.Requests }
          StorageClassName := g.pvcTpl.Spec.StorageClassName } } = g.pvcTpl ∧
    (PVC crOvn scheme 0 g).1.ObjectMeta.Name = "data-ovn-0" ∧
    (PVC crOvn scheme 0 g).1.Spec.Resources.Requests = [("storage", "10Gi")] ∧
    (PVC crOvn scheme 0 g).1.Spec.StorageClassName = some "fast" := by
  have hname : ∀ (c : OVNCentral) (i : Int), (PVC c scheme i g).1.ObjectMeta.Name
      = "data-" ++ c.ObjectMeta.Name ++ "-" ++ formatInt i := by
    intro c i
    simp only [PVC, SetControllerReference_Name, dataVolumeName]
    rfl
  refine ⟨hname cr index, ?_, ?_, ?_, ?_, ?_, ?_, ?_⟩
  · simp [PVC, SetControllerReference_Namespace]
  · simp [PVC, StringMap.set, ResourceStorage]
  · simp [PVC]
  · simp only [PVC, PersistentVolumeClaim.DeepCopy]
    rw [SetControllerReference_frame]
  · rw [hname]
    decide
  · simp [PVC, StringMap.set, ResourceStorage, crOvn]
  · simp [PVC, crOvn]

/-! ## Claims about `BootstrapPod` -/

theorem BootstrapPod_Spec (cr : OVNCentral) (scheme : Scheme) (pvc : PersistentVolumeClaim)
    (g : Templates) :
    (BootstrapPod cr scheme pvc g).1.Spec =
      { RestartPolicy := "Never"
        Volumes := [ { Name := "data"
                       VolumeSource :=
                         { PersistentVolumeClaim := some { ClaimName := pvc.ObjectMeta.Name } } } ]
        Containers :=
          [ { g.bootstrapContainerTpl with
                Name := "bootstrap-nb"
                Image := cr.Spec.Image
                Env := g.bootstrapContainerTpl.Env ++
                  [ { Name := "DB_TYPE", Value := "NB" },
                    { Name := "ADDRESS", Value := nbAddress cr } ] },
            { g.bootstrapContainerTpl with
                Name := "bootstrap-sb"
                Image := cr.Spec.Image
                Env := (g.bootstrapContainerTpl.Env ++
                  [ { Name := "DB_TYPE", Value := "NB" },
                    { Name := "ADDRESS", Value := nbAddress cr } ]) ++
                  [ { Name := "DB_TYPE", Value := "SB" },
                    { Name := "ADDRESS", Value := sbAddress cr } ] } ] } := by
  rfl

/-- C8: for every cluster resource and claim, `BootstrapPod` returns a pod
named cluster name followed by `-bootstrap`, in the namespace of the resource,
with restart policy Never, exactly two containers named `bootstrap-nb` and
`bootstrap-sb` in that order, both running the image of the descriptor, and
exactly one volume, named `data`, whose claim source names the supplied claim;
fed with the claim that `PVC` builds for index `i`, the volume binds the claim
named `data-`, cluster name, dash, decimal `i`. -/
theorem BootstrapPod_shape (cr : OVNCentral) (scheme : Scheme) (pvc : PersistentVolumeClaim)
    (g : Templates) (i : Int) :
    (BootstrapPod cr scheme pvc g).1.ObjectMeta.Name = cr.ObjectMeta.Name ++ "-bootstrap" ∧
    (BootstrapPod cr scheme pvc g).1.ObjectMeta.Namespace = cr.ObjectMeta.Namespace ∧
    (BootstrapPod cr scheme pvc g).1.Spec.RestartPolicy = "Never" ∧
    (BootstrapPod cr scheme pvc g).1.Spec.Containers.length = 2 ∧
    (BootstrapPod cr scheme pvc g).1.Spec.Containers.map (fun c => c.Name)
        = ["bootstrap-nb", "bootstrap-sb"] ∧
    (BootstrapPod cr scheme pvc g).1.Spec.Containers.map (fun c => c.Image)
        = [cr.Spec.Image, cr.Spec.Image] ∧
    (BootstrapPod cr scheme pvc g).1.Spec.Volumes
        = [ { Name := "data"
              VolumeSource :=
                { PersistentVolumeClaim := some { ClaimName := pvc.ObjectMeta.Name } } } ] ∧
    (BootstrapPod cr scheme (PVC cr scheme i g).1 g).1.Spec.Volumes.map
        (fun v => (v.Name, v.VolumeSource.PersistentVolumeClaim.map (fun s => s.ClaimName)))
        = [("data", some ("data-" ++ cr.ObjectMeta.Name ++ "-" ++ formatInt i))] := by
  refine ⟨?_, ?_, ?_, ?_, ?_, ?_, ?_, ?_⟩
  · simp [BootstrapPod, SetControllerReference_Name]
  · simp [BootstrapPod, SetControllerReference_Namespace]
  · rw [BootstrapPod_Spec]
  · rw [BootstrapPod_Spec]
    rfl
  · rw [BootstrapPod_Spec]
    rfl
  · rw [BootstrapPod_Spec]
    rfl
  · rw [BootstrapPod_Spec]
  · rw [BootstrapPod_Spec]
    simp only [List.map, PVC, SetControllerReference_Name, dataVolumeName, Option.map]
    rfl

/-- C2: for every cluster resource and every supplied claim, the environment
of the first container of the bootstrap pod ends with `DB_TYPE=NB` followed by
the north address of replica 0 (port 6641), and the environment of the second
container ends with `DB_TYPE=SB` followed by the south address of replica 0
(port 6642); neither address mentions the replica count or the claim.  For
cluster `ovn` in `ovn-ns`, with a claim built for index 2, the addresses are
`tcp:ovn-0.ovn-ns.svc.cluster.local:6641` and
`tcp:ovn-0.ovn-ns.svc.cluster.local:6642`. -/
theorem BootstrapPod_addresses_use_ordinal_zero (cr : OVNCentral) (scheme : Scheme)
    (pvc : PersistentVolumeClaim) (g : Templates) :
    (∃ nb sb : Container, (BootstrapPod cr scheme pvc g).1.Spec.Containers = [nb, sb] ∧
      [ ({ Name := "DB_TYPE", Value := "NB" } : EnvVar),
        { Name := "ADDRESS"
          Value := "tcp:" ++ cr.ObjectMeta.Name ++ "-0." ++ cr.ObjectMeta.Namespace
            ++ ".svc.cluster.local:6641" } ] <:+ nb.Env ∧
      [ ({ Name := "DB_TYPE", Value := "SB" } : EnvVar),
        { Name := "ADDRESS"
          Value := "tcp:" ++ cr.ObjectMeta.Name ++ "-0." ++ cr.ObjectMeta.Namespace
            ++ ".svc.cluster.local:6642" } ] <:+ sb.Env) ∧
    (BootstrapPod crOvn scheme pvcOvn2 g).1.Spec.Containers.map (fun c => c.Env.getLast?)
      = [ some { Name := "ADDRESS", Value := "tcp:ovn-0.ovn-ns.svc.cluster.local:6641" },
          some { Name := "ADDRESS", Value := "tcp:ovn-0.ovn-ns.svc.cluster.local:6642" } ] := by
  refine ⟨⟨_, _, by rw [BootstrapPod_Spec], ?_, ?_⟩, ?_⟩
  · exact List.suffix_append _ _
  · exact List.suffix_append _ _
  · rw [BootstrapPod_Spec]
    simp only [List.map, List.getLast?_append, List.getLast?_cons_cons, List.getLast?_singleton,
      Option.or_some]
    decide

/-- C3: on every input the environment of the `bootstrap-sb` container is the
environment of the template followed by FOUR entries, the two written for
`bootstrap-nb` (`DB_TYPE=NB` and the port-6641 address) and then `DB_TYPE=SB`
and the port-6642 address; with the all-zero template and cluster `ovn` the
second container therefore carries `DB_TYPE=NB` and the north address. -/
theorem BootstrapPod_sb_env_carries_nb_entries (cr : OVNCentral) (scheme : Scheme)
    (pvc : PersistentVolumeClaim) (g : Templates) :
    (BootstrapPod cr scheme pvc g).1.Spec.Containers.map (fun c => (c.Name, c.Env))
      = [ ("bootstrap-nb", g.bootstrapContainerTpl.Env ++
            [ { Name := "DB_TYPE", Value := "NB" }, { Name := "ADDRESS", Value := nbAddress cr } ]),
          ("bootstrap-sb", g.bootstrapContainerTpl.Env ++
            [ { Name := "DB_TYPE", Value := "NB" }, { Name := "ADDRESS", Value := nbAddress cr },
              { Name := "DB_TYPE", Value := "SB" }, { Name := "ADDRESS", Value := sbAddress cr } ]) ] ∧
    (BootstrapPod crOvn schemeOvn pvcOvn2 tplsZero).1.Spec.Containers.map (fun c => (c.Name, c.Env))
      = [ ("bootstrap-nb",
            [ { Name := "DB_TYPE", Value := "NB" },
              { Name := "ADDRESS", Value := "tcp:ovn-0.ovn-ns.svc.cluster.local:6641" } ]),
          ("bootstrap-sb",
            [ { Name := "DB_TYPE", Value := "NB" },
              { Name := "ADDRESS", Value := "tcp:ovn-0.ovn-ns.svc.cluster.local:6641" },
              { Name := "DB_TYPE", Value := "SB" },
              { Name := "ADDRESS", Value := "tcp:ovn-0.ovn-ns.svc.cluster.local:6642" } ]) ] := by
  refine ⟨?_, by decide⟩
  rw [BootstrapPod_Spec]
  simp

/-! ## Claims about owner references -/

theorem validateOwner_same_namespace (owner object : ObjectMeta)
    (hns : object.Namespace = owner.Namespace) : validateOwner owner object = none := by
  unfold validateOwner
  by_cases h : owner.Namespace = ""
  · simp [h]
  · simp [h, hns]

theorem SetControllerReference_fresh (cr : OVNCentral) (m : ObjectMeta) (scheme : Scheme)
    (gvk : GroupVersionKind) (hns : m.Namespace = cr.ObjectMeta.Namespace)
    (hres : GVKForObject scheme = .ok gvk) (hrefs : m.OwnerReferences = []) :
    (SetControllerReference cr m scheme).1.OwnerReferences = [controllerRef cr gvk] ∧
    (SetControllerReference cr m scheme).2 = none := by
  have hv := validateOwner_same_namespace cr.ObjectMeta m hns
  simp [SetControllerReference, hv, hres, GetControllerOf, hrefs, upsertOwnerRef, indexOwnerRef]

theorem SetControllerReference_unresolved (cr : OVNCentral) (m : ObjectMeta) (scheme : Scheme)
    (err : String) (hres : GVKForObject scheme = .error err) :
    (SetControllerReference cr m scheme).1 = m ∧
    (SetControllerReference cr m scheme).2.isSome = true := by
  unfold SetControllerReference
  split
  · exact ⟨rfl, rfl⟩
  · rw [hres]
    exact ⟨rfl, rfl⟩

/-- C4 fails as stated: with a registry that resolves the owner type and a
claim template that already carries one owner reference, the claim returned by
`PVC` has two owner references, the one of the template first. -/
theorem PVC_keeps_template_owner_references :
    GVKForObject schemeOvn
      = .ok { Group := "ovn-central.openstack.org", Version := "v1alpha1", Kind := "OVNCentral" } ∧
    (PVC crOvn schemeOvn 0 tplsOwned).1.ObjectMeta.OwnerReferences.length = 2 ∧
    ¬ ((PVC crOvn schemeOvn 0 tplsOwned).1.ObjectMeta.OwnerReferences.length = 1) ∧
    (PVC crOvn schemeOvn 0 tplsOwned).1.ObjectMeta.OwnerReferences.map (fun r => (r.Kind, r.Name))
      = [("ConfigMap", "seed"), ("OVNCentral", "ovn")] := by
  refine ⟨rfl, by decide, by decide, by decide⟩

/-- C4, amended: for every cluster resource whose type the registry resolves
to `gvk`, every index, every supplied claim and every loaded claim template
that carries NO owner references, each object returned by `ServerService`,
`PVC` and `BootstrapPod` has exactly one owner reference, and that reference is
a controller reference carrying the name and UID of the resource, the kind of
`gvk` and the API version rendered from the group and version of `gvk`. -/
theorem builders_set_single_controller_reference (cr : OVNCentral) (scheme : Scheme)
    (gvk : GroupVersionKind) (index : Int) (pvc : PersistentVolumeClaim) (g : Templates)
    (hres : GVKForObject scheme = .ok gvk)
    (htpl : g.pvcTpl.ObjectMeta.OwnerReferences = []) :
    (ServerService cr scheme index).ObjectMeta.OwnerReferences
      = [ { APIVersion := GroupVersion.String { Group := gvk.Group, Version := gvk.Version }
            Kind := gvk.Kind
            Name := cr.ObjectMeta.Name
            UID := cr.ObjectMeta.UID
            Controller := some true
            BlockOwnerDeletion := some true } ] ∧
    (PVC cr scheme index g).1.ObjectMeta.OwnerReferences
      = (ServerService cr scheme index).ObjectMeta.OwnerReferences ∧
    (BootstrapPod cr scheme pvc g).1.ObjectMeta.OwnerReferences
      = (ServerService cr scheme index).ObjectMeta.OwnerReferences ∧
    (ServerService cr scheme index).ObjectMeta.OwnerReferences.length = 1 ∧
    (PVC cr scheme index g).1.ObjectMeta.OwnerReferences.length = 1 ∧
    (BootstrapPod cr scheme pvc g).1.ObjectMeta.OwnerReferences.length = 1 := by
  have hs : (ServerService cr scheme index).ObjectMeta.OwnerReferences
      = [controllerRef cr gvk] := by
    simp only [ServerService]
    refine (SetControllerReference_fresh cr _ scheme gvk ?_ hres ?_).1 <;> rfl
  have hp : (PVC cr scheme index g).1.ObjectMeta.OwnerReferences = [controllerRef cr gvk] := by
    simp only [PVC, PersistentVolumeClaim.DeepCopy]
    refine (SetControllerReference_fresh cr _ scheme gvk ?_ hres ?_).1
    · rfl
    · exact htpl
  have hb : (BootstrapPod cr scheme pvc g).1.ObjectMeta.OwnerReferences
      = [controllerRef cr gvk] := by
    simp only [BootstrapPod]
    refine (SetControllerReference_fresh cr _ scheme gvk ?_ hres ?_).1 <;> rfl
  refine ⟨?_, ?_, ?_, ?_, ?_, ?_⟩
  · rw [hs]; rfl
  · rw [hp, hs]
  · rw [hb, hs]
  · rw [hs]; rfl
  · rw [hp]; rfl
  · rw [hb]; rfl

/-- Witness of the amended C4 at the scenario cluster with a resolving
registry, index 0, a claim built for replica 2 and all-zero templates. -/
theorem builders_set_single_controller_reference_witness :
    GVKForObject schemeOvn
      = .ok { Group := "ovn-central.openstack.org", Version := "v1alpha1", Kind := "OVNCentral" } ∧
    tplsZero.pvcTpl.ObjectMeta.OwnerReferences = [] ∧
    (ServerService crOvn schemeOvn 0).ObjectMeta.OwnerReferences
      = [ { APIVersion := "ovn-central.openstack.org/v1alpha1"
            Kind := "OVNCentral"
            Name := "ovn"
            UID := "uid-ovn"
            Controller := some true
            BlockOwnerDeletion := some true } ] ∧
    (PVC crOvn schemeOvn 0 tplsZero).1.ObjectMeta.OwnerReferences.length = 1 ∧
    (BootstrapPod crOvn schemeOvn pvcOvn2 tplsZero).1.ObjectMeta.OwnerReferences.length = 1 :=
  have h := builders_set_single_controller_reference crOvn schemeOvn
    { Group := "ovn-central.openstack.org", Version := "v1alpha1", Kind := "OVNCentral" }
    0 pvcOvn2 tplsZero rfl rfl
  ⟨rfl, rfl, h.1, h.2.2.2.2.1, h.2.2.2.2.2⟩

/-- C5: when the registry does not resolve the owner type, the linker reports
an error and leaves the object as it was, and the three builders return their
object all the same: the service and the bootstrap pod with no owner reference
at all, the claim with just the owner references of its template (none for
the all-zero template).  No builder aborts and none links the object to the
cluster resource. -/
theorem builders_return_unlinked_object_on_linker_error (cr : OVNCentral) (index : Int)
    (pvc : PersistentVolumeClaim) (g : Templates) :
    (∀ m : ObjectMeta, (SetControllerReference cr m schemeEmpty).1 = m ∧
      (SetControllerReference cr m schemeEmpty).2.isSome = true) ∧
    (ServerService cr schemeEmpty index).ObjectMeta.OwnerReferences = [] ∧
    (PVC cr schemeEmpty index g).1.ObjectMeta.OwnerReferences
      = g.pvcTpl.ObjectMeta.OwnerReferences ∧
    (BootstrapPod cr schemeEmpty pvc g).1.ObjectMeta.OwnerReferences = [] ∧
    (PVC crOvn schemeEmpty 0 tplsZero).1.ObjectMeta.OwnerReferences = [] := by
  have hlink : ∀ m : ObjectMeta, (SetControllerReference cr m schemeEmpty).1 = m ∧
      (SetControllerReference cr m schemeEmpty).2.isSome = true :=
    fun m => SetControllerReference_unresolved cr m schemeEmpty _ rfl
  refine ⟨hlink, ?_, ?_, ?_, by decide⟩
  · simp only [ServerService, (hlink _).1]
  · simp only [PVC, PersistentVolumeClaim.DeepCopy, (hlink _).1]
  · simp only [BootstrapPod, (hlink _).1]

/-! ## Decimal rendering is injective -/

theorem digitChar_toNat (n : Nat) (h : n < 10) : (Nat.digitChar n).toNat - 48 = n := by
  interval_cases n <;> rfl

theorem foldl_toDigitsCore (fuel : Nat) : ∀ (n : Nat) (ds : List Char), n < fuel →
    List.foldl (fun acc c => acc * 10 + (c.toNat - 48)) 0 (Nat.toDigitsCore 10 fuel n ds)
      = List.foldl (fun acc c => acc * 10 + (c.toNat - 48)) n ds := by
  induction fuel with
  | zero => intro n ds h; omega
  | succ fuel ih =>
    intro n ds h
    have hd : (Nat.digitChar (n % 10)).toNat - 48 = n % 10 :=
      digitChar_toNat _ (Nat.mod_lt _ (by decide))
    simp only [Nat.toDigitsCore]
    split
    · rename_i hq
      have hn : n % 10 = n := by omega
      rw [hn] at hd
      simp only [List.foldl_cons, hn, hd, Nat.zero_mul, Nat.zero_add]
    · rename_i hq
      rw [ih (n / 10) _ (by omega)]
      simp only [List.foldl_cons, hd]
      congr 1
      omega

theorem readDecimal_repr (n : Nat) : readDecimal (Nat.repr n).data = n := by
  simp only [readDecimal, Nat.repr, Nat.toDigits, List.asString]
  exact foldl_toDigitsCore (n + 1) n [] (Nat.lt_succ_self n)

theorem formatInt_injective_of_nonneg (i j : Int) (hi : 0 ≤ i) (hj : 0 ≤ j)
    (h : formatInt i = formatInt j) : i = j := by
  obtain ⟨a, rfl⟩ := Int.eq_ofNat_of_zero_le hi
  obtain ⟨b, rfl⟩ := Int.eq_ofNat_of_zero_le hj
  have hab : Nat.repr a = Nat.repr b := h
  have := congrArg (fun s => readDecimal s.data) hab
  simp only [readDecimal_repr] at this
  rw [this]

theorem string_append_left_cancel (a x y : String) (h : a ++ x = a ++ y) : x = y := by
  have hd := congrArg String.data h
  simp only [String.data_append] at hd
  exact String.ext (List.append_cancel_left hd)

/-- C6: for every cluster resource and all replica indices `i`, `j` that are
non-negative and different, the services built for `i` and for `j` have
different names, and so have the claims built for `i` and for `j`. -/
theorem names_differ_for_distinct_indices (cr : OVNCentral) (scheme : Scheme) (g : Templates)
    (i j : Int) (hi : 0 ≤ i) (hj : 0 ≤ j) (hij : i ≠ j) :
    (ServerService cr scheme i).ObjectMeta.Name ≠ (ServerService cr scheme j).ObjectMeta.Name ∧
    (PVC cr scheme i g).1.ObjectMeta.Name ≠ (PVC cr scheme j g).1.ObjectMeta.Name := by
  constructor
  · intro h
    simp only [ServerService, SetControllerReference_Name] at h
    exact hij (formatInt_injective_of_nonneg i j hi hj (string_append_left_cancel _ _ _ h))
  · intro h
    simp only [PVC, SetControllerReference_Name] at h
    exact hij (formatInt_injective_of_nonneg i j hi hj (string_append_left_cancel _ _ _ h))

/-- Witness of C6 at the scenario cluster for replicas 0 and 1. -/
theorem names_differ_for_distinct_indices_witness :
    (0 : Int) ≤ 0 ∧ (0 : Int) ≤ 1 ∧ (0 : Int) ≠ 1 ∧
    (ServerService crOvn schemeOvn 0).ObjectMeta.Name
      ≠ (ServerService crOvn schemeOvn 1).ObjectMeta.Name ∧
    (PVC crOvn schemeOvn 0 tplsZero).1.ObjectMeta.Name
      ≠ (PVC crOvn schemeOvn 1 tplsZero).1.ObjectMeta.Name :=
  have h := names_differ_for_distinct_indices crOvn schemeOvn tplsZero 0 1
    (by decide) (by decide) (by decide)
  ⟨by decide, by decide, by decide, h.1, h.2⟩

/-! ## Bootstrap addresses and the service of replica 0 -/

theorem ServerService_Name (cr : OVNCentral) (scheme : Scheme) (index : Int) :
    (ServerService cr scheme index).ObjectMeta.Name
      = cr.ObjectMeta.Name ++ "-" ++ formatInt index := by
  simp [ServerService, SetControllerReference_Name]

theorem ServerService_Namespace (cr : OVNCentral) (scheme : Scheme) (index : Int) :
    (ServerService cr scheme index).ObjectMeta.Namespace = cr.ObjectMeta.Namespace := by
  simp [ServerService, SetControllerReference_Namespace]

theorem ServerService_Ports (cr : OVNCentral) (scheme : Scheme) (index : Int) :
    (ServerService cr scheme index).Spec.Ports
      = [ { Name := "north", Port := 6641 }, { Name := "south", Port := 6642 },
          { Name := "north-raft", Port := 6643 }, { Name := "south-raft", Port := 6644 } ] := by
  simp [ServerService]

theorem PVC_Name (cr : OVNCentral) (scheme : Scheme) (index : Int) (g : Templates) :
    (PVC cr scheme index g).1.ObjectMeta.Name
      = "data" ++ "-" ++ cr.ObjectMeta.Name ++ "-" ++ formatInt index := by
  simp only [PVC, SetControllerReference_Name, dataVolumeName]

theorem string_eq_of_data (a b : String) (h : a.data = b.data) : a = b :=
  String.ext h

/-- C14: for every cluster resource, the last environment entry of the first
bootstrap container is `ADDRESS` set to `tcp:`, the name of the service built
for replica 0, a dot, the namespace of that service, `.svc.cluster.local:` and
the decimal port of the service port named `north`; the last environment
entry of the second container is the same expression with the service port
named `south`. -/
theorem BootstrapPod_addresses_match_service_zero (cr : OVNCentral) (scheme : Scheme)
    (pvc : PersistentVolumeClaim) (g : Templates) :
    ∃ (nb sb : Container) (north south : ServicePort),
      (BootstrapPod cr scheme pvc g).1.Spec.Containers = [nb, sb] ∧
      (ServerService cr scheme 0).Spec.Ports.find? (fun p => p.Name == "north") = some north ∧
      (ServerService cr scheme 0).Spec.Ports.find? (fun p => p.Name == "south") = some south ∧
      nb.Env.getLast? = some
        { Name := "ADDRESS"
          Value := "tcp:" ++ (ServerService cr scheme 0).ObjectMeta.Name ++ "."
            ++ (ServerService cr scheme 0).ObjectMeta.Namespace ++ ".svc.cluster.local:"
            ++ formatInt north.Port } ∧
      sb.Env.getLast? = some
        { Name := "ADDRESS"
          Value := "tcp:" ++ (ServerService cr scheme 0).ObjectMeta.Name ++ "."
            ++ (ServerService cr scheme 0).ObjectMeta.Namespace ++ ".svc.cluster.local:"
            ++ formatInt south.Port } := by
  have hname := ServerService_Name cr scheme 0
  have hns := ServerService_Namespace cr scheme 0
  have hports := ServerService_Ports cr scheme 0
  refine ⟨_, _, { Name := "north", Port := 6641 }, { Name := "south", Port := 6642 },
    by rw [BootstrapPod_Spec], ?_, ?_, ?_, ?_⟩
  · rw [hports]; decide
  · rw [hports]; decide
  · rw [hname, hns]
    simp only [List.getLast?_append, List.getLast?_cons_cons, List.getLast?_singleton,
      Option.or_some, nbAddress]
    congr 2
    apply string_eq_of_data
    have h0 : (formatInt 0).data = ['0'] := by decide
    have hp : (formatInt 6641).data = ['6', '6', '4', '1'] := by decide
    simp only [String.data_append, h0, hp, List.append_assoc]
    rfl
  · rw [hname, hns]
    simp only [List.getLast?_append, List.getLast?_cons_cons, List.getLast?_singleton,
      Option.or_some, sbAddress]
    congr 2
    apply string_eq_of_data
    have h0 : (formatInt 0).data = ['0'] := by decide
    have hp : (formatInt 6642).data = ['6', '6', '4', '2'] := by decide
    simp only [String.data_append, h0, hp, List.append_assoc]
    rfl

/-! ## Joint injectivity of names -/

theorem digitChar_ne_dash (n : Nat) (h : n < 10) : Nat.digitChar n ≠ '-' := by
  interval_cases n <;> decide

theorem toDigitsCore_no_dash (fuel : Nat) : ∀ (n : Nat) (ds : List Char),
    (∀ c ∈ ds, c ≠ '-') → ∀ c ∈ Nat.toDigitsCore 10 fuel n ds, c ≠ '-' := by
  induction fuel with
  | zero =>
    intro n ds hds c hc
    simp only [Nat.toDigitsCore] at hc
    exact hds c hc
  | succ fuel ih =>
    intro n ds hds c hc
    have hcons : ∀ c ∈ Nat.digitChar (n % 10) :: ds, c ≠ '-' := by
      intro c hc
      rcases List.mem_cons.mp hc with rfl | hc
      · exact digitChar_ne_dash _ (Nat.mod_lt _ (by decide))
      · exact hds c hc
    simp only [Nat.toDigitsCore] at hc
    split at hc
    · exact hcons c hc
    · exact ih _ _ hcons c hc

theorem repr_no_dash (n : Nat) : '-' ∉ (Nat.repr n).data := by
  intro h
  simp only [Nat.repr, Nat.toDigits, List.asString] at h
  exact toDigitsCore_no_dash (n + 1) n [] (by simp) '-' h rfl

theorem formatInt_no_dash (i : Int) (hi : 0 ≤ i) : '-' ∉ (formatInt i).data := by
  obtain ⟨a, rfl⟩ := Int.eq_ofNat_of_zero_le hi
  exact repr_no_dash a

theorem split_at_last_dash (a b x y : List Char) (hx : '-' ∉ x) (hy : '-' ∉ y)
    (h : a ++ '-' :: x = b ++ '-' :: y) : a = b ∧ x = y := by
  rcases List.append_eq_append_iff.mp h with ⟨t, hb, ht⟩ | ⟨t, ha, ht⟩
  · cases t with
    | nil =>
      simp only [List.nil_append, List.cons.injEq, true_and] at ht
      simp only [List.append_nil] at hb
      exact ⟨hb.symm, ht⟩
    | cons c t =>
      simp only [List.cons_append, List.cons.injEq] at ht
      exact absurd (ht.2 ▸ (by simp : '-' ∈ t ++ '-' :: y)) hx
  · cases t with
    | nil =>
      simp only [List.nil_append, List.cons.injEq, true_and] at ht
      simp only [List.append_nil] at ha
      exact ⟨ha, ht.symm⟩
    | cons c t =>
      simp only [List.cons_append, List.cons.injEq] at ht
      exact absurd (ht.2 ▸ (by simp : '-' ∈ t ++ '-' :: x)) hy

theorem name_index_injective (n1 n2 : String) (i j : Int) (hi : 0 ≤ i) (hj : 0 ≤ j)
    (h : n1 ++ "-" ++ formatInt i = n2 ++ "-" ++ formatInt j) : n1 = n2 ∧ i = j := by
  have hd := congrArg String.data h
  simp only [String.data_append, List.append_assoc] at hd
  have hsplit := split_at_last_dash n1.data n2.data (formatInt i).data (formatInt j).data
    (formatInt_no_dash i hi) (formatInt_no_dash j hj) hd
  exact ⟨String.ext hsplit.1, formatInt_injective_of_nonneg i j hi hj (String.ext hsplit.2)⟩

/-- C13: for all cluster resources (with arbitrary names) and all
non-negative indices `i`, `j`, services with equal names come from equal
cluster names and equal indices, and so do claims with equal names.  With a
negative index this fails: cluster `a` with index -1 and cluster `a-` with
index 1 both give the service name `a--1` and the claim name `data-a--1`. -/
theorem names_jointly_injective (cr1 cr2 : OVNCentral) (scheme1 scheme2 : Scheme)
    (g : Templates) (i j : Int) (hi : 0 ≤ i) (hj : 0 ≤ j) :
    ((ServerService cr1 scheme1 i).ObjectMeta.Name = (ServerService cr2 scheme2 j).ObjectMeta.Name →
      cr1.ObjectMeta.Name = cr2.ObjectMeta.Name ∧ i = j) ∧
    ((PVC cr1 scheme1 i g).1.ObjectMeta.Name = (PVC cr2 scheme2 j g).1.ObjectMeta.Name →
      cr1.ObjectMeta.Name = cr2.ObjectMeta.Name ∧ i = j) ∧
    (ServerService crA scheme1 (-1)).ObjectMeta.Name = "a--1" ∧
    (ServerService crADash scheme1 1).ObjectMeta.Name = "a--1" ∧
    (PVC crA scheme1 (-1) g).1.ObjectMeta.Name = "data-a--1" ∧
    (PVC crADash scheme1 1 g).1.ObjectMeta.Name = "data-a--1" ∧
    crA.ObjectMeta.Name ≠ crADash.ObjectMeta.Name := by
  refine ⟨?_, ?_, ?_, ?_, ?_, ?_, by decide⟩
  · intro h
    rw [ServerService_Name, ServerService_Name] at h
    exact name_index_injective _ _ i j hi hj h
  · intro h
    rw [PVC_Name, PVC_Name] at h
    have h2 : cr1.ObjectMeta.Name ++ "-" ++ formatInt i
        = cr2.ObjectMeta.Name ++ "-" ++ formatInt j := by
      apply string_append_left_cancel ("data" ++ "-")
      simpa only [String.append_assoc] using h
    exact name_index_injective _ _ i j hi hj h2
  · rw [ServerService_Name]; decide
  · rw [ServerService_Name]; decide
  · rw [PVC_Name]; decide
  · rw [PVC_Name]; decide

/-- Witness of C13: the scenario cluster and a second resource of the same
name in another namespace, both at index 3. -/
theorem names_jointly_injective_witness :
    (0 : Int) ≤ 3 ∧
    (ServerService crOvn schemeOvn 3).ObjectMeta.Name
      = (ServerService crOvnOther schemeEmpty 3).ObjectMeta.Name ∧
    (crOvn.ObjectMeta.Name = crOvnOther.ObjectMeta.Name ∧ (3 : Int) = 3) :=
  ⟨by decide, by decide,
    (names_jointly_injective crOvn crOvnOther schemeOvn schemeEmpty tplsZero 3 3
      (by decide) (by decide)).1 (by decide)⟩

/-! ## Template loading -/

theorem perm_yamls_cases (order : List (String × Target)) (hperm : order.Perm yamls) :
    order = [("ovsdb_container.yaml", Target.ovsdbContainerTpl), ("pvc.yaml", Target.pvcTpl),
        ("bootstrap-container.yaml", Target.bootstrapContainerTpl)] ∨
    order = [("ovsdb_container.yaml", Target.ovsdbContainerTpl),
        ("bootstrap-container.yaml", Target.bootstrapContainerTpl), ("pvc.yaml", Target.pvcTpl)] ∨
    order = [("pvc.yaml", Target.pvcTpl), ("ovsdb_container.yaml", Target.ovsdbContainerTpl),
        ("bootstrap-container.yaml", Target.bootstrapContainerTpl)] ∨
    order = [("pvc.yaml", Target.pvcTpl), ("bootstrap-container.yaml", Target.bootstrapContainerTpl),
        ("ovsdb_container.yaml", Target.ovsdbContainerTpl)] ∨
    order = [("bootstrap-container.yaml", Target.bootstrapContainerTpl),
        ("ovsdb_container.yaml", Target.ovsdbContainerTpl), ("pvc.yaml", Target.pvcTpl)] ∨
    order = [("bootstrap-container.yaml", Target.bootstrapContainerTpl), ("pvc.yaml", Target.pvcTpl),
        ("ovsdb_container.yaml", Target.ovsdbContainerTpl)] := by
  have hlen : order.length = 3 := hperm.length_eq
  have hnd : order.Nodup := hperm.nodup_iff.mpr (by decide)
  have hmem : ∀ e ∈ order, e ∈ yamls := fun e he => hperm.mem_iff.mp he
  match order, hlen, hnd, hmem with
  | [x, y, z], _, hnd, hmem =>
    have hx := hmem x (by simp)
    have hy := hmem y (by simp)
    have hz := hmem z (by simp)
    simp only [yamls, List.mem_cons, List.mem_singleton, List.not_mem_nil, or_false] at hx hy hz
    rcases hx with rfl | rfl | rfl <;> rcases hy with rfl | rfl | rfl <;>
      rcases hz with rfl | rfl | rfl <;>
      first
        | decide
        | exact absurd hnd (by decide)

theorem initLoop_ok_iff (h : Host) (p : String) (order : List (String × Target))
    (hperm : order.Perm yamls) (g0 g : Templates) :
    initLoop h p order g0 = .ok g ↔
      ∃ c1 c2 c3 : String,
        h.ReadFile (h.Join p "ovsdb_container.yaml") = .ok c1 ∧
        h.ReadFile (h.Join p "pvc.yaml") = .ok c2 ∧
        h.ReadFile (h.Join p "bootstrap-container.yaml") = .ok c3 ∧
        h.UnmarshalStrictContainer c1 = .ok g.ovsdbContainerTpl ∧
        h.UnmarshalStrictPVC c2 = .ok g.pvcTpl ∧
        h.UnmarshalStrictContainer c3 = .ok g.bootstrapContainerTpl := by
  cases g with
  | mk ga gb gc =>
  rcases perm_yamls_cases order hperm with rfl | rfl | rfl | rfl | rfl | rfl
  all_goals
    simp only [initLoop]
    generalize h.ReadFile (h.Join p "ovsdb_container.yaml") = r1
    generalize h.ReadFile (h.Join p "pvc.yaml") = r2
    generalize h.ReadFile (h.Join p "bootstrap-container.yaml") = r3
    rcases r1 with e1 | c1 <;> rcases r2 with e2 | c2 <;> rcases r3 with e3 | c3 <;>
      simp only [UnmarshalStrict, Except.ok.injEq, exists_eq_left', false_and, and_false,
        exists_false, exists_const, reduceCtorEq, iff_false, not_false_eq_true]
    all_goals
      try (cases hu1 : h.UnmarshalStrictContainer c1 <;> simp [hu1])
    all_goals
      try (cases hu2 : h.UnmarshalStrictPVC c2 <;> simp [hu2])
    all_goals
      try (cases hu3 : h.UnmarshalStrictContainer c3 <;> simp [hu3])

/-- C11: in whichever order the three files are visited, `init` panics, and
so leaves no templates, when `OPERATOR_YAMLS` is unset or empty, when one of
`ovsdb_container.yaml`, `pvc.yaml`, `bootstrap-container.yaml` cannot be read
from that directory, or when the strict parse of one of them fails; it
returns templates exactly when the variable is set and all three files are
read and parsed, and then the three templates are the three parsed values. -/
theorem init_loads_all_or_panics (h : Host) (order : List (String × Target))
    (hperm : order.Perm yamls) :
    (h.Getenv "OPERATOR_YAMLS" = "" → ∃ e, init h order = .error e) ∧
    (∀ file obj, (file, obj) ∈ yamls →
      (∃ e, h.ReadFile (h.Join (h.Getenv "OPERATOR_YAMLS") file) = .error e) →
      ∃ e, init h order = .error e) ∧
    (∀ file obj contents, (file, obj) ∈ yamls →
      h.ReadFile (h.Join (h.Getenv "OPERATOR_YAMLS") file) = .ok contents →
      (∃ e, UnmarshalStrict h contents obj {} = .error e) →
      ∃ e, init h order = .error e) ∧
    (∀ g : Templates, init h order = .ok g ↔
      h.Getenv "OPERATOR_YAMLS" ≠ "" ∧
      ∃ c1 c2 c3 : String,
        h.ReadFile (h.Join (h.Getenv "OPERATOR_YAMLS") "ovsdb_container.yaml") = .ok c1 ∧
        h.ReadFile (h.Join (h.Getenv "OPERATOR_YAMLS") "pvc.yaml") = .ok c2 ∧
        h.ReadFile (h.Join (h.Getenv "OPERATOR_YAMLS") "bootstrap-container.yaml") = .ok c3 ∧
        h.UnmarshalStrictContainer c1 = .ok g.ovsdbContainerTpl ∧
        h.UnmarshalStrictPVC c2 = .ok g.pvcTpl ∧
        h.UnmarshalStrictContainer c3 = .ok g.bootstrapContainerTpl) := by
  have hiff : ∀ g : Templates, init h order = .ok g ↔
      h.Getenv "OPERATOR_YAMLS" ≠ "" ∧
      ∃ c1 c2 c3 : String,
        h.ReadFile (h.Join (h.Getenv "OPERATOR_YAMLS") "ovsdb_container.yaml") = .ok c1 ∧
        h.ReadFile (h.Join (h.Getenv "OPERATOR_YAMLS") "pvc.yaml") = .ok c2 ∧
        h.ReadFile (h.Join (h.Getenv "OPERATOR_YAMLS") "bootstrap-container.yaml") = .ok c3 ∧
        h.UnmarshalStrictContainer c1 = .ok g.ovsdbContainerTpl ∧
        h.UnmarshalStrictPVC c2 = .ok g.pvcTpl ∧
        h.UnmarshalStrictContainer c3 = .ok g.bootstrapContainerTpl := by
    intro g
    by_cases hp : h.Getenv "OPERATOR_YAMLS" = ""
    · simp [init, hp]
    · simp only [init, hp, if_false, ne_eq, not_false_eq_true, true_and]
      exact initLoop_ok_iff h _ order hperm {} g
  have hfail : (∀ g : Templates, init h order ≠ .ok g) → ∃ e, init h order = .error e := by
    intro hno
    cases hinit : init h order with
    | error e => exact ⟨e, rfl⟩
    | ok g => exact absurd hinit (hno g)
  refine ⟨?_, ?_, ?_, hiff⟩
  · intro hp
    exact hfail (fun g hg => ((hiff g).mp hg).1 hp)
  · intro file obj hmem hread
    obtain ⟨e, he⟩ := hread
    apply hfail
    intro g hg
    obtain ⟨_, c1, c2, c3, hr1, hr2, hr3, _, _, _⟩ := (hiff g).mp hg
    simp only [yamls, List.mem_cons, List.mem_singleton, Prod.mk.injEq, List.not_mem_nil,
      or_false] at hmem
    rcases hmem with ⟨rfl, _⟩ | ⟨rfl, _⟩ | ⟨rfl, _⟩
    · rw [hr1] at he; cases he
    · rw [hr2] at he; cases he
    · rw [hr3] at he; cases he
  · intro file obj contents hmem hread hparse
    obtain ⟨e, he⟩ := hparse
    apply hfail
    intro g hg
    obtain ⟨_, c1, c2, c3, hr1, hr2, hr3, hu1, hu2, hu3⟩ := (hiff g).mp hg
    simp only [yamls, List.mem_cons, List.mem_singleton, Prod.mk.injEq, List.not_mem_nil,
      or_false] at hmem
    rcases hmem with ⟨rfl, rfl⟩ | ⟨rfl, rfl⟩ | ⟨rfl, rfl⟩
    · rw [hr1] at hread
      cases hread
      simp [UnmarshalStrict, hu1] at he
    · rw [hr2] at hread
      cases hread
      simp [UnmarshalStrict, hu2] at he
    · rw [hr3] at hread
      cases hread
      simp [UnmarshalStrict, hu3] at he

/-- Witness of C11: visiting the files in the order of the map literal, a host
on which everything reads and parses to the zero value loads the all-zero
templates, and a host without the variable panics. -/
theorem init_loads_all_or_panics_witness :
    yamls.Perm yamls ∧
    init hostOk yamls = .ok tplsZero ∧
    (∃ e, init hostUnset yamls = .error e) :=
  ⟨List.Perm.refl _,
    ((init_loads_all_or_panics hostOk yamls (List.Perm.refl _)).2.2.2 tplsZero).mpr
      ⟨by decide, "", "", "", rfl, rfl, rfl, rfl, rfl, rfl⟩,
    (init_loads_all_or_panics hostUnset yamls (List.Perm.refl _)).1 rfl⟩

/-! ## The builders over shared memory refine the builders over values -/

namespace Heap

theorem alloc_eq_put (m : Memory) (c : Cell) :
    m.alloc c = (m.next, m.put m.next c (m.next + 1)) := rfl

theorem store_eq_put (m : Memory) (a : Nat) (c : Cell) : m.store a c = m.put a c m.next := rfl

theorem next_put (m : Memory) (a : Nat) (c : Cell) (n : Nat) : (m.put a c n).next = n := rfl

theorem growslice_put (m : Memory) (a : Nat) (c : Cell) (n : Nat) :
    (m.put a c n).growslice = m.growslice := rfl

theorem cell_put_ne (m : Memory) (a b : Nat) (c : Cell) (n : Nat) (h : b ≠ a) :
    (m.put a c n).cell b = m.cell b := by
  simp [Memory.put, h]

theorem container_put_ne (m : Memory) (a b : Nat) (c : Cell) (n : Nat) (h : b ≠ a) :
    (m.put a c n).container b = m.container b := by
  simp [Memory.container, Memory.put, h]

theorem container_put_eq (m : Memory) (a b : Nat) (x : ContainerCell) (n : Nat) (h : b = a) :
    (m.put a (Cell.container x) n).container b = x := by
  simp [Memory.container, Memory.put, h, Cell.asContainer]

theorem envArray_put_ne (m : Memory) (a b : Nat) (c : Cell) (n : Nat) (h : b ≠ a) :
    (m.put a c n).envArray b = m.envArray b := by
  simp [Memory.envArray, Memory.put, h]

theorem envArray_put_eq (m : Memory) (a b : Nat) (x : List EnvVar) (n : Nat) (h : b = a) :
    (m.put a (Cell.envArray x) n).envArray b = x := by
  simp [Memory.envArray, Memory.put, h, Cell.asEnvArray]

theorem take_padded {α : Type} (xs : List α) (n : Nat) (z : α) (h : n ≤ xs.length) :
    ((xs.take n ++ List.replicate n z).take n) = xs.take n := by
  rw [List.take_append_of_le_length (by simp [h])]
  simp

theorem take_append_cons {α : Type} (xs : List α) (y : α) (zs : List α) (n : Nat)
    (h : xs.length = n) : (xs ++ y :: zs).take (n + 1) = xs ++ [y] := by
  subst h
  rw [List.take_append]
  simp

theorem ownerArray_put_ne (m : Memory) (a b : Nat) (c : Cell) (n : Nat) (h : b ≠ a) :
    (m.put a c n).ownerArray b = m.ownerArray b := by
  simp [Memory.ownerArray, Memory.put, h]

theorem ownerArray_put_eq (m : Memory) (a : Nat) (x : List OwnerReference) (n : Nat) :
    (m.put a (Cell.ownerArray x) n).ownerArray a = x := by
  simp [Memory.ownerArray, Memory.put, Cell.asOwnerArray]

theorem upsertOwnerRef_spec (ref : OwnerReference) (o : ObjectMeta) (s : Slice) (m : Memory)
    (hs : m.tightOwners s) :
    m.next ≤ (upsertOwnerRef ref s m).2.next ∧
    (upsertOwnerRef ref s m).2.growslice = m.growslice ∧
    (∀ b, b < m.next → s.array ≠ some b → (upsertOwnerRef ref s m).2.cell b = m.cell b) ∧
    ((upsertOwnerRef ref s m).1.array = s.array ∨
      (upsertOwnerRef ref s m).1.array = some m.next) ∧
    (upsertOwnerRef ref s m).2.readOwners (upsertOwnerRef ref s m).1
      = (Stubs.upsertOwnerRef ref
          { o with OwnerReferences := m.readOwners s }).OwnerReferences := by
  obtain ⟨arr, len, cap⟩ := s
  cases arr with
  | none =>
    obtain ⟨hl, hc⟩ := hs
    simp only at hl hc
    subst hl hc
    refine ⟨?_, ?_, fun b hb _ => ?_, ?_, ?_⟩ <;>
      simp (disch := omega) [upsertOwnerRef, Stubs.upsertOwnerRef, Memory.readOwners,
        indexOwnerRef, Memory.appendOwners, alloc_eq_put, next_put, growslice_put, cell_put_ne,
        ownerArray_put_eq]
  | some a =>
    obtain ⟨ha, hl, hc⟩ := hs
    simp only at ha hl hc
    have htake : List.take len (m.ownerArray a) = m.ownerArray a :=
      List.take_of_length_le (by omega)
    simp only [upsertOwnerRef, Stubs.upsertOwnerRef, Memory.readOwners, htake]
    cases hidx : indexOwnerRef (m.ownerArray a) ref with
    | none =>
      have hnot : ¬ (len + 1 ≤ cap) := by omega
      refine ⟨?_, ?_, fun b hb _ => ?_, ?_, ?_⟩ <;>
        simp (disch := omega) [Memory.appendOwners, Memory.readOwners, htake, alloc_eq_put,
          next_put, growslice_put, cell_put_ne, ownerArray_put_eq, hnot]
      exact take_append_cons _ _ _ _ hl
    | some idx =>
      refine ⟨?_, ?_, fun b hb hne => ?_, ?_, ?_⟩ <;>
        simp (disch := omega) [store_eq_put, next_put, growslice_put,
          ownerArray_put_eq, Memory.readOwners]
      · have hba : b ≠ a := fun h => hne (by rw [h])
        exact cell_put_ne _ _ _ _ _ hba
      · omega

theorem SetControllerReference_spec (owner : OVNCentral) (controlled : ObjectMeta) (s : Slice)
    (scheme : Scheme) (m : Memory) (hs : m.tightOwners s) :
    m.next ≤ (SetControllerReference owner controlled s scheme m).2.next ∧
    (SetControllerReference owner controlled s scheme m).2.growslice = m.growslice ∧
    (∀ b, b < m.next → s.array ≠ some b →
      (SetControllerReference owner controlled s scheme m).2.cell b = m.cell b) ∧
    ((SetControllerReference owner controlled s scheme m).1.1.array = s.array ∨
      (SetControllerReference owner controlled s scheme m).1.1.array = some m.next) ∧
    (SetControllerReference owner controlled s scheme m).2.readOwners
        (SetControllerReference owner controlled s scheme m).1.1
      = (Stubs.SetControllerReference owner
          { controlled with OwnerReferences := m.readOwners s } scheme).1.OwnerReferences ∧
    (∀ err, (SetControllerReference owner controlled s scheme m).1.2 = some err →
      (SetControllerReference owner controlled s scheme m).1.1 = s ∧
      (SetControllerReference owner controlled s scheme m).2 = m) := by
  have hv : validateOwner owner.ObjectMeta { controlled with OwnerReferences := m.readOwners s }
      = validateOwner owner.ObjectMeta controlled := rfl
  unfold SetControllerReference Stubs.SetControllerReference
  rw [hv]
  cases validateOwner owner.ObjectMeta controlled with
  | some err => exact ⟨Nat.le_refl _, rfl, fun _ _ _ => rfl, Or.inl rfl, rfl, fun _ _ => ⟨rfl, rfl⟩⟩
  | none =>
    cases GVKForObject scheme with
    | error err => exact ⟨Nat.le_refl _, rfl, fun _ _ _ => rfl, Or.inl rfl, rfl, fun _ _ => ⟨rfl, rfl⟩⟩
    | ok gvk =>
      have hu := upsertOwnerRef_spec (controllerRef owner gvk) controlled s m hs
      dsimp only
      cases GetControllerOf { controlled with OwnerReferences := m.readOwners s } with
      | none => exact ⟨hu.1, hu.2.1, hu.2.2.1, hu.2.2.2.1, hu.2.2.2.2, fun _ h => nomatch h⟩
      | some existing =>
        dsimp only
        split
        · exact ⟨Nat.le_refl _, rfl, fun _ _ _ => rfl, Or.inl rfl, rfl, fun _ _ => ⟨rfl, rfl⟩⟩
        · exact ⟨hu.1, hu.2.1, hu.2.2.1, hu.2.2.2.1, hu.2.2.2.2, fun _ h => nomatch h⟩

theorem service_put_ne (m : Memory) (a b : Nat) (c : Cell) (n : Nat) (h : b ≠ a) :
    (m.put a c n).service b = m.service b := by
  simp [Memory.service, Memory.put, h]

theorem service_put_eq (m : Memory) (a : Nat) (x : ServiceCell) (n : Nat) :
    (m.put a (Cell.service x) n).service a = x := by
  simp [Memory.service, Memory.put, Cell.asService]

theorem claim_put_ne (m : Memory) (a b : Nat) (c : Cell) (n : Nat) (h : b ≠ a) :
    (m.put a c n).claim b = m.claim b := by
  simp [Memory.claim, Memory.put, h]

theorem claim_put_eq (m : Memory) (a : Nat) (x : ClaimCell) (n : Nat) :
    (m.put a (Cell.claim x) n).claim a = x := by
  simp [Memory.claim, Memory.put, Cell.asClaim]

theorem pod_put_ne (m : Memory) (a b : Nat) (c : Cell) (n : Nat) (h : b ≠ a) :
    (m.put a c n).pod b = m.pod b := by
  simp [Memory.pod, Memory.put, h]

theorem pod_put_eq (m : Memory) (a : Nat) (x : PodCell) (n : Nat) :
    (m.put a (Cell.pod x) n).pod a = x := by
  simp [Memory.pod, Memory.put, Cell.asPod]

theorem readOwners_put_ne (m : Memory) (p : Nat) (c : Cell) (n : Nat) (s : Slice)
    (h : s.array ≠ some p) : (m.put p c n).readOwners s = m.readOwners s := by
  unfold Memory.readOwners
  cases hs : s.array with
  | none => rfl
  | some a =>
    have hap : a ≠ p := fun hh => h (by rw [hs, hh])
    simp only [ownerArray_put_ne _ _ _ _ _ hap]

theorem put_put_same (m : Memory) (a : Nat) (c d : Cell) (n k : Nat) :
    (m.put a c n).put a d k = m.put a d k := by
  simp only [Memory.put, Memory.mk.injEq, true_and, and_true]
  funext b
  split <;> rfl

theorem readOwners_congr (F M : Memory) (s : Slice)
    (h : ∀ a, s.array = some a → F.cell a = M.cell a) : F.readOwners s = M.readOwners s := by
  unfold Memory.readOwners
  cases hs : s.array with
  | none => rfl
  | some a => simp only [Memory.ownerArray, h a hs]

theorem readEnv_congr (F M : Memory) (s : Slice)
    (h : ∀ a, s.array = some a → F.cell a = M.cell a) : F.readEnv s = M.readEnv s := by
  unfold Memory.readEnv
  cases hs : s.array with
  | none => rfl
  | some a => simp only [Memory.envArray, h a hs]

theorem link_read (owner : OVNCentral) (controlled : ObjectMeta) (s : Slice) (scheme : Scheme)
    (M : Memory) (p : Nat) (hp : p < M.next) (ht : M.tightOwners s) (hne : s.array ≠ some p)
    (c : Cell) (n : Nat) :
    ((SetControllerReference owner controlled s scheme M).2.put p c n).readOwners
        (SetControllerReference owner controlled s scheme M).1.1
      = (Stubs.SetControllerReference owner
          { controlled with OwnerReferences := M.readOwners s } scheme).1.OwnerReferences := by
  obtain ⟨_, _, _, harr, hread, _⟩ := SetControllerReference_spec owner controlled s scheme M ht
  rw [readOwners_put_ne, hread]
  rcases harr with h | h
  · rw [h]; exact hne
  · rw [h]
    intro hh
    injection hh with hh
    omega

theorem SetControllerReferenceService_spec (owner : OVNCentral) (p : Nat) (scheme : Scheme)
    (M : Memory) (hp : p < M.next) (ht : M.tightOwners (M.service p).OwnerReferences)
    (hne : (M.service p).OwnerReferences.array ≠ some p) :
    (SetControllerReferenceService owner p scheme M).2.readService p
      = { (M.service p).fields with
          ObjectMeta := (Stubs.SetControllerReference owner
            { (M.service p).fields.ObjectMeta with
              OwnerReferences := M.readOwners (M.service p).OwnerReferences } scheme).1 } ∧
    M.next ≤ (SetControllerReferenceService owner p scheme M).2.next ∧
    (SetControllerReferenceService owner p scheme M).2.growslice = M.growslice ∧
    (∀ b, b < M.next → b ≠ p → (M.service p).OwnerReferences.array ≠ some b →
      (SetControllerReferenceService owner p scheme M).2.cell b = M.cell b) := by
  obtain ⟨hnext, hgrow, hframe, harr, hread, herr⟩ := SetControllerReference_spec owner
    (M.service p).fields.ObjectMeta (M.service p).OwnerReferences scheme M ht
  have hlink := link_read owner (M.service p).fields.ObjectMeta (M.service p).OwnerReferences
    scheme M p hp ht hne
  have hserv : (SetControllerReference owner (M.service p).fields.ObjectMeta
      (M.service p).OwnerReferences scheme M).2.service p = M.service p :=
    congrArg Cell.asService (hframe p hp hne)
  rw [SetControllerReference_frame]
  unfold SetControllerReferenceService
  dsimp only
  split
  · rename_i err he
    obtain ⟨h1, h2⟩ := herr err he
    refine ⟨?_, hnext, hgrow, fun b hb _ hb2 => hframe b hb hb2⟩
    rw [← hread, h1, h2]
    rfl
  · refine ⟨?_, hnext, hgrow, fun b hb hbp hb2 => ?_⟩
    · simp only [Memory.readService, Memory.setService, store_eq_put, service_put_eq, hlink,
        hserv]
    · simp only [Memory.setService, store_eq_put, cell_put_ne _ _ _ _ _ hbp]
      exact hframe b hb hb2

theorem SetControllerReferenceClaim_spec (owner : OVNCentral) (p : Nat) (scheme : Scheme)
    (M : Memory) (hp : p < M.next) (ht : M.tightOwners (M.claim p).OwnerReferences)
    (hne : (M.claim p).OwnerReferences.array ≠ some p) :
    (SetControllerReferenceClaim owner p scheme M).2.readClaim p
      = { (M.claim p).fields with
          ObjectMeta := (Stubs.SetControllerReference owner
            { (M.claim p).fields.ObjectMeta with
              OwnerReferences := M.readOwners (M.claim p).OwnerReferences } scheme).1 } ∧
    M.next ≤ (SetControllerReferenceClaim owner p scheme M).2.next ∧
    (SetControllerReferenceClaim owner p scheme M).2.growslice = M.growslice ∧
    (∀ b, b < M.next → b ≠ p → (M.claim p).OwnerReferences.array ≠ some b →
      (SetControllerReferenceClaim owner p scheme M).2.cell b = M.cell b) := by
  obtain ⟨hnext, hgrow, hframe, harr, hread, herr⟩ := SetControllerReference_spec owner
    (M.claim p).fields.ObjectMeta (M.claim p).OwnerReferences scheme M ht
  have hlink := link_read owner (M.claim p).fields.ObjectMeta (M.claim p).OwnerReferences
    scheme M p hp ht hne
  have hclaim : (SetControllerReference owner (M.claim p).fields.ObjectMeta
      (M.claim p).OwnerReferences scheme M).2.claim p = M.claim p :=
    congrArg Cell.asClaim (hframe p hp hne)
  rw [SetControllerReference_frame]
  unfold SetControllerReferenceClaim
  dsimp only
  split
  · rename_i err he
    obtain ⟨h1, h2⟩ := herr err he
    refine ⟨?_, hnext, hgrow, fun b hb _ hb2 => hframe b hb hb2⟩
    rw [← hread, h1, h2]
    rfl
  · refine ⟨?_, hnext, hgrow, fun b hb hbp hb2 => ?_⟩
    · simp only [Memory.readClaim, Memory.setClaim, store_eq_put, claim_put_eq, hlink,
        hclaim]
    · simp only [Memory.setClaim, store_eq_put, cell_put_ne _ _ _ _ _ hbp]
      exact hframe b hb hb2

theorem SetControllerReferencePod_spec (owner : OVNCentral) (p : Nat) (scheme : Scheme)
    (M : Memory) (hp : p < M.next) (ht : M.tightOwners (M.pod p).OwnerReferences)
    (hnil : (M.pod p).OwnerReferences.array = none)
    (hcont : ∀ c ∈ (M.pod p).Containers, ∀ a, c.Env.array = some a → a < M.next ∧ a ≠ p) :
    (SetControllerReferencePod owner p scheme M).2.readPod p
      = { (M.pod p).fields with
          ObjectMeta := (Stubs.SetControllerReference owner
            { (M.pod p).fields.ObjectMeta with
              OwnerReferences := M.readOwners (M.pod p).OwnerReferences } scheme).1
          Spec := { (M.pod p).fields.Spec with
            Containers := (M.pod p).Containers.map M.readContainerCell } } ∧
    M.next ≤ (SetControllerReferencePod owner p scheme M).2.next ∧
    (SetControllerReferencePod owner p scheme M).2.growslice = M.growslice ∧
    (∀ b, b < M.next → b ≠ p → (SetControllerReferencePod owner p scheme M).2.cell b = M.cell b) := by
  have hne : (M.pod p).OwnerReferences.array ≠ some p := by rw [hnil]; exact fun h => nomatch h
  obtain ⟨hnext, hgrow, hframe, harr, hread, herr⟩ := SetControllerReference_spec owner
    (M.pod p).fields.ObjectMeta (M.pod p).OwnerReferences scheme M ht
  have hframe2 : ∀ b, b < M.next → (SetControllerReference owner (M.pod p).fields.ObjectMeta
      (M.pod p).OwnerReferences scheme M).2.cell b = M.cell b :=
    fun b hb => hframe b hb (by rw [hnil]; exact fun h => nomatch h)
  have hlink := link_read owner (M.pod p).fields.ObjectMeta (M.pod p).OwnerReferences
    scheme M p hp ht hne
  have hpod : (SetControllerReference owner (M.pod p).fields.ObjectMeta
      (M.pod p).OwnerReferences scheme M).2.pod p = M.pod p :=
    congrArg Cell.asPod (hframe2 p hp)
  rw [SetControllerReference_frame]
  unfold SetControllerReferencePod
  dsimp only
  split
  · rename_i err he
    obtain ⟨h1, h2⟩ := herr err he
    refine ⟨?_, hnext, hgrow, fun b hb _ => hframe2 b hb⟩
    rw [← hread, h1, h2]
    rfl
  · refine ⟨?_, hnext, hgrow, fun b hb hbp => ?_⟩
    · simp only [Memory.readPod, Memory.setPod, store_eq_put, pod_put_eq, hlink, hpod]
      have hmap : List.map ((SetControllerReference owner (M.pod p).fields.ObjectMeta
          (M.pod p).OwnerReferences scheme M).2.put p
            (Cell.pod { fields := (M.pod p).fields, Containers := (M.pod p).Containers,
                        OwnerReferences := (SetControllerReference owner
                          (M.pod p).fields.ObjectMeta (M.pod p).OwnerReferences scheme M).1.1 })
            (SetControllerReference owner (M.pod p).fields.ObjectMeta
              (M.pod p).OwnerReferences scheme M).2.next).readContainerCell (M.pod p).Containers
          = List.map M.readContainerCell (M.pod p).Containers := by
        apply List.map_congr_left
        intro c hc
        unfold Memory.readContainerCell
        rw [readEnv_congr]
        intro a ha
        obtain ⟨h1, h2⟩ := hcont c hc a ha
        rw [cell_put_ne _ _ _ _ _ h2]
        exact hframe2 a h1
      rw [hmap]
    · simp only [Memory.setPod, store_eq_put, cell_put_ne _ _ _ _ _ hbp]
      exact hframe2 b hb

theorem take_grown {α : Type} (X : List α) (a b : α) (R : List α) (n : Nat)
    (hX : X.length = n) : List.take (n + 2) (X ++ [a, b] ++ R) = X ++ [a, b] :=
  List.take_left' (by simp [hX])

theorem take_grown_twice {α : Type} (X : List α) (a b c d : α) (S : List α) (n : Nat)
    (hX : X.length = n) :
    List.take (n + 2 + 2) (X ++ [a, b] ++ [c, d] ++ S) = X ++ [a, b] ++ [c, d] :=
  List.take_left' (by simp [hX])

theorem take_written {α : Type} (X : List α) (a b c d : α) (S : List α) (n : Nat)
    (hX : X.length = n) :
    List.take (n + 2) (X ++ [a, b] ++ [c, d] ++ S) = X ++ [a, b] := by
  rw [List.append_assoc, List.append_assoc]
  rw [← List.append_assoc]
  exact List.take_left' (by simp [hX])

theorem BootstrapPod_spec (cr : OVNCentral) (scheme : Scheme) (pvc : PersistentVolumeClaim)
    (m : Memory) (h : m.Loaded) :
    (BootstrapPod cr scheme pvc m).2.readPod (BootstrapPod cr scheme pvc m).1
      = (Stubs.BootstrapPod cr scheme pvc m.templates).1 ∧
    m.next ≤ (BootstrapPod cr scheme pvc m).2.next ∧
    (BootstrapPod cr scheme pvc m).2.growslice = m.growslice ∧
    (∀ b, b < m.next → (BootstrapPod cr scheme pvc m).2.cell b = m.cell b) := by
  obtain ⟨h3, _, _, h2⟩ := h
  simp only [bootstrapContainerTpl] at h2
  generalize hc : m.container 2 = c0 at h2
  obtain ⟨f0, arr0, len0, cap0⟩ := c0
  generalize hr : BootstrapPod cr scheme pvc m = r
  unfold BootstrapPod at hr
  lift_lets at hr
  extract_lets new bootstrapPod m1 m2 m3 m4 m5 nb_address nbCopy nbContainer m6 m7 m8 nbEnv m9
    sb_address sbCopy sbContainer m10 m11 m12 sbEnv m13 m14 m15 at hr
  have hwf : (arr0 = none ∧ len0 = 0 ∧ cap0 = 0) ∨
      (∃ a0, arr0 = some a0 ∧ a0 < m.next ∧ len0 ≤ (m.envArray a0).length) := by
    cases arr0 with
    | none => exact Or.inl ⟨rfl, h2.1, h2.2⟩
    | some a0 => exact Or.inr ⟨a0, rfl, h2.1, h2.2⟩
  clear h2
  rcases hwf with ⟨rfl, rfl, rfl⟩ | ⟨a0, rfl, ha0, hlen⟩
  all_goals
    have e : new = new := rfl
    conv at e =>
      rhs
      simp (disch := omega) only [new, alloc_eq_put, store_eq_put, next_put, growslice_put, Memory.setPod, Memory.setContainer,
      Memory.appendEnv, DeepCopyContainer, bootstrapContainerTpl, pod_put_eq, pod_put_ne,
      container_put_eq, container_put_ne, envArray_put_eq, envArray_put_ne, put_put_same, hc,
      Memory.readEnv, List.length_cons, List.length_nil, Nat.zero_add, Nat.reduceAdd, if_neg, take_padded]
    clear_value new
    subst e
    have e : bootstrapPod = bootstrapPod := rfl
    conv at e =>
      rhs
      simp (disch := omega) only [bootstrapPod, alloc_eq_put, store_eq_put, next_put, growslice_put, Memory.setPod, Memory.setContainer,
      Memory.appendEnv, DeepCopyContainer, bootstrapContainerTpl, pod_put_eq, pod_put_ne,
      container_put_eq, container_put_ne, envArray_put_eq, envArray_put_ne, put_put_same, hc,
      Memory.readEnv, List.length_cons, List.length_nil, Nat.zero_add, Nat.reduceAdd, if_neg, take_padded]
    clear_value bootstrapPod
    subst e
    have e : m1 = m1 := rfl
    conv at e =>
      rhs
      simp (disch := omega) only [m1, alloc_eq_put, store_eq_put, next_put, growslice_put, Memory.setPod, Memory.setContainer,
      Memory.appendEnv, DeepCopyContainer, bootstrapContainerTpl, pod_put_eq, pod_put_ne,
      container_put_eq, container_put_ne, envArray_put_eq, envArray_put_ne, put_put_same, hc,
      Memory.readEnv, List.length_cons, List.length_nil, Nat.zero_add, Nat.reduceAdd, if_neg, take_padded]
    clear_value m1
    subst e
    have e : m2 = m2 := rfl
    conv at e =>
      rhs
      simp (disch := omega) only [m2, alloc_eq_put, store_eq_put, next_put, growslice_put, Memory.setPod, Memory.setContainer,
      Memory.appendEnv, DeepCopyContainer, bootstrapContainerTpl, pod_put_eq, pod_put_ne,
      container_put_eq, container_put_ne, envArray_put_eq, envArray_put_ne, put_put_same, hc,
      Memory.readEnv, List.length_cons, List.length_nil, Nat.zero_add, Nat.reduceAdd, if_neg, take_padded]
    clear_value m2
    subst e
    have e : m3 = m3 := rfl
    conv at e =>
      rhs
      simp (disch := omega) only [m3, alloc_eq_put, store_eq_put, next_put, growslice_put, Memory.setPod, Memory.setContainer,
      Memory.appendEnv, DeepCopyContainer, bootstrapContainerTpl, pod_put_eq, pod_put_ne,
      container_put_eq, container_put_ne, envArray_put_eq, envArray_put_ne, put_put_same, hc,
      Memory.readEnv, List.length_cons, List.length_nil, Nat.zero_add, Nat.reduceAdd, if_neg, take_padded]
    clear_value m3
    subst e
    have e : m4 = m4 := rfl
    conv at e =>
      rhs
      simp (disch := omega) only [m4, alloc_eq_put, store_eq_put, next_put, growslice_put, Memory.setPod, Memory.setContainer,
      Memory.appendEnv, DeepCopyContainer, bootstrapContainerTpl, pod_put_eq, pod_put_ne,
      container_put_eq, container_put_ne, envArray_put_eq, envArray_put_ne, put_put_same, hc,
      Memory.readEnv, List.length_cons, List.length_nil, Nat.zero_add, Nat.reduceAdd, if_neg, take_padded]
    clear_value m4
    subst e
    have e : m5 = m5 := rfl
    conv at e =>
      rhs
      simp (disch := omega) only [m5, alloc_eq_put, store_eq_put, next_put, growslice_put, Memory.setPod, Memory.setContainer,
      Memory.appendEnv, DeepCopyContainer, bootstrapContainerTpl, pod_put_eq, pod_put_ne,
      container_put_eq, container_put_ne, envArray_put_eq, envArray_put_ne, put_put_same, hc,
      Memory.readEnv, List.length_cons, List.length_nil, Nat.zero_add, Nat.reduceAdd, if_neg, take_padded]
    clear_value m5
    subst e
    have e : nbCopy = nbCopy := rfl
    conv at e =>
      rhs
      simp (disch := omega) only [nbCopy, alloc_eq_put, store_eq_put, next_put, growslice_put, Memory.setPod, Memory.setContainer,
      Memory.appendEnv, DeepCopyContainer, bootstrapContainerTpl, pod_put_eq, pod_put_ne,
      container_put_eq, container_put_ne, envArray_put_eq, envArray_put_ne, put_put_same, hc,
      Memory.readEnv, List.length_cons, List.length_nil, Nat.zero_add, Nat.reduceAdd, if_neg, take_padded]
    clear_value nbCopy
    subst e
    have e : nbContainer = nbContainer := rfl
    conv at e =>
      rhs
      simp (disch := omega) only [nbContainer, alloc_eq_put, store_eq_put, next_put, growslice_put, Memory.setPod, Memory.setContainer,
      Memory.appendEnv, DeepCopyContainer, bootstrapContainerTpl, pod_put_eq, pod_put_ne,
      container_put_eq, container_put_ne, envArray_put_eq, envArray_put_ne, put_put_same, hc,
      Memory.readEnv, List.length_cons, List.length_nil, Nat.zero_add, Nat.reduceAdd, if_neg, take_padded]
    clear_value nbContainer
    subst e
    have e : m6 = m6 := rfl
    conv at e =>
      rhs
      simp (disch := omega) only [m6, alloc_eq_put, store_eq_put, next_put, growslice_put, Memory.setPod, Memory.setContainer,
      Memory.appendEnv, DeepCopyContainer, bootstrapContainerTpl, pod_put_eq, pod_put_ne,
      container_put_eq, container_put_ne, envArray_put_eq, envArray_put_ne, put_put_same, hc,
      Memory.readEnv, List.length_cons, List.length_nil, Nat.zero_add, Nat.reduceAdd, if_neg, take_padded]
    clear_value m6
    subst e
    have e : m7 = m7 := rfl
    conv at e =>
      rhs
      simp (disch := omega) only [m7, alloc_eq_put, store_eq_put, next_put, growslice_put, Memory.setPod, Memory.setContainer,
      Memory.appendEnv, DeepCopyContainer, bootstrapContainerTpl, pod_put_eq, pod_put_ne,
      container_put_eq, container_put_ne, envArray_put_eq, envArray_put_ne, put_put_same, hc,
      Memory.readEnv, List.length_cons, List.length_nil, Nat.zero_add, Nat.reduceAdd, if_neg, take_padded]
    clear_value m7
    subst e
    have e : m8 = m8 := rfl
    conv at e =>
      rhs
      simp (disch := omega) only [m8, alloc_eq_put, store_eq_put, next_put, growslice_put, Memory.setPod, Memory.setContainer,
      Memory.appendEnv, DeepCopyContainer, bootstrapContainerTpl, pod_put_eq, pod_put_ne,
      container_put_eq, container_put_ne, envArray_put_eq, envArray_put_ne, put_put_same, hc,
      Memory.readEnv, List.length_cons, List.length_nil, Nat.zero_add, Nat.reduceAdd, if_neg, take_padded]
    clear_value m8
    subst e
    have e : nbEnv = nbEnv := rfl
    conv at e =>
      rhs
      simp (disch := omega) only [nbEnv, alloc_eq_put, store_eq_put, next_put, growslice_put, Memory.setPod, Memory.setContainer,
      Memory.appendEnv, DeepCopyContainer, bootstrapContainerTpl, pod_put_eq, pod_put_ne,
      container_put_eq, container_put_ne, envArray_put_eq, envArray_put_ne, put_put_same, hc,
      Memory.readEnv, List.length_cons, List.length_nil, Nat.zero_add, Nat.reduceAdd, if_neg, take_padded]
    clear_value nbEnv
    subst e
    have e : m9 = m9 := rfl
    conv at e =>
      rhs
      simp (disch := omega) only [m9, alloc_eq_put, store_eq_put, next_put, growslice_put, Memory.setPod, Memory.setContainer,
      Memory.appendEnv, DeepCopyContainer, bootstrapContainerTpl, pod_put_eq, pod_put_ne,
      container_put_eq, container_put_ne, envArray_put_eq, envArray_put_ne, put_put_same, hc,
      Memory.readEnv, List.length_cons, List.length_nil, Nat.zero_add, Nat.reduceAdd, if_neg, take_padded]
    clear_value m9
    subst e
    have e : sbCopy = sbCopy := rfl
    conv at e =>
      rhs
      simp (disch := omega) only [sbCopy, alloc_eq_put, store_eq_put, next_put, growslice_put, Memory.setPod, Memory.setContainer,
      Memory.appendEnv, DeepCopyContainer, bootstrapContainerTpl, pod_put_eq, pod_put_ne,
      container_put_eq, container_put_ne, envArray_put_eq, envArray_put_ne, put_put_same, hc,
      Memory.readEnv, List.length_cons, List.length_nil, Nat.zero_add, Nat.reduceAdd, if_neg, take_padded]
    clear_value sbCopy
    subst e
    have e : sbContainer = sbContainer := rfl
    conv at e =>
      rhs
      simp (disch := omega) only [sbContainer, alloc_eq_put, store_eq_put, next_put, growslice_put, Memory.setPod, Memory.setContainer,
      Memory.appendEnv, DeepCopyContainer, bootstrapContainerTpl, pod_put_eq, pod_put_ne,
      container_put_eq, container_put_ne, envArray_put_eq, envArray_put_ne, put_put_same, hc,
      Memory.readEnv, List.length_cons, List.length_nil, Nat.zero_add, Nat.reduceAdd, if_neg, take_padded]
    clear_value sbContainer
    subst e
    have e : m10 = m10 := rfl
    conv at e =>
      rhs
      simp (disch := omega) only [m10, alloc_eq_put, store_eq_put, next_put, growslice_put, Memory.setPod, Memory.setContainer,
      Memory.appendEnv, DeepCopyContainer, bootstrapContainerTpl, pod_put_eq, pod_put_ne,
      container_put_eq, container_put_ne, envArray_put_eq, envArray_put_ne, put_put_same, hc,
      Memory.readEnv, List.length_cons, List.length_nil, Nat.zero_add, Nat.reduceAdd, if_neg, take_padded]
    clear_value m10
    subst e
    have e : m11 = m11 := rfl
    conv at e =>
      rhs
      simp (disch := omega) only [m11, alloc_eq_put, store_eq_put, next_put, growslice_put, Memory.setPod, Memory.setContainer,
      Memory.appendEnv, DeepCopyContainer, bootstrapContainerTpl, pod_put_eq, pod_put_ne,
      container_put_eq, container_put_ne, envArray_put_eq, envArray_put_ne, put_put_same, hc,
      Memory.readEnv, List.length_cons, List.length_nil, Nat.zero_add, Nat.reduceAdd, if_neg, take_padded]
    clear_value m11
    subst e
    have e : m12 = m12 := rfl
    conv at e =>
      rhs
      simp (disch := omega) only [m12, alloc_eq_put, store_eq_put, next_put, growslice_put, Memory.setPod, Memory.setContainer,
      Memory.appendEnv, DeepCopyContainer, bootstrapContainerTpl, pod_put_eq, pod_put_ne,
      container_put_eq, container_put_ne, envArray_put_eq, envArray_put_ne, put_put_same, hc,
      Memory.readEnv, List.length_cons, List.length_nil, Nat.zero_add, Nat.reduceAdd, if_neg, take_padded]
    clear_value m12
    subst e
  all_goals
    have e : sbEnv = sbEnv := rfl
    conv at e =>
      rhs
      simp (disch := omega) only [sbEnv, alloc_eq_put, store_eq_put, next_put, growslice_put, Memory.setPod, Memory.setContainer,
      Memory.appendEnv, DeepCopyContainer, bootstrapContainerTpl, pod_put_eq, pod_put_ne,
      container_put_eq, container_put_ne, envArray_put_eq, envArray_put_ne, put_put_same, hc,
      Memory.readEnv, List.length_cons, List.length_nil, Nat.zero_add, Nat.reduceAdd, if_neg, take_padded]
    clear_value sbEnv
    split at e
  all_goals subst e
  all_goals
    have e : m13 = m13 := rfl
    conv at e =>
      rhs
      simp (disch := omega) only [m13, alloc_eq_put, store_eq_put, next_put, growslice_put, Memory.setPod, Memory.setContainer,
      Memory.appendEnv, DeepCopyContainer, bootstrapContainerTpl, pod_put_eq, pod_put_ne,
      container_put_eq, container_put_ne, envArray_put_eq, envArray_put_ne, put_put_same, hc,
      Memory.readEnv, List.length_cons, List.length_nil, Nat.zero_add, Nat.reduceAdd, if_neg, take_padded]
    clear_value m13
    subst e
  all_goals
    have e : m14 = m14 := rfl
    conv at e =>
      rhs
      simp (disch := omega) only [m14, alloc_eq_put, store_eq_put, next_put, growslice_put, Memory.setPod, Memory.setContainer,
      Memory.appendEnv, DeepCopyContainer, bootstrapContainerTpl, pod_put_eq, pod_put_ne,
      container_put_eq, container_put_ne, envArray_put_eq, envArray_put_ne, put_put_same, hc,
      Memory.readEnv, List.length_cons, List.length_nil, Nat.zero_add, Nat.reduceAdd, if_neg, take_padded]
    clear_value m14
    have hp : m.next < m14.next := by
      rw [e]
      simp only [next_put]
      omega
    have ht : m14.tightOwners (m14.pod m.next).OwnerReferences := by
      rw [e]
      simp (disch := omega) only [pod_put_eq, pod_put_ne, Memory.tightOwners, and_self]
    have hnil : (m14.pod m.next).OwnerReferences.array = none := by
      rw [e]
      simp (disch := omega) only [pod_put_eq, pod_put_ne]
    have hcont : ∀ c ∈ (m14.pod m.next).Containers, ∀ a, c.Env.array = some a →
        a < m14.next ∧ a ≠ m.next := by
      rw [e]
      simp (disch := omega) only [pod_put_eq, pod_put_ne, next_put, container_put_eq,
        container_put_ne, List.mem_cons, List.mem_singleton, List.not_mem_nil, or_false,
        forall_eq_or_imp, forall_eq, Option.some.injEq]
      constructor <;> (intro a ha; omega)
    obtain ⟨hread, hnext, hgrow, hframe⟩ :=
      SetControllerReferencePod_spec cr m.next scheme m14 hp ht hnil hcont
    subst hr
    simp only [m15]
    refine ⟨hread.trans ?_, by omega, ?_, fun b hb => ?_⟩
    · subst e
      simp (disch := omega) only [pod_put_eq, pod_put_ne, container_put_eq, container_put_ne,
        envArray_put_eq, envArray_put_ne, Memory.readOwners, Memory.readContainerCell,
        Memory.readEnv, List.map_cons, List.map_nil, Stubs.BootstrapPod, Memory.templates,
        Memory.readContainer, bootstrapContainerTpl, hc, Container.DeepCopy, nb_address,
        sb_address, List.take_take, Nat.min_self]
      first
        | rfl
        | (have hX : (List.take len0 (m.envArray a0)).length = len0 := by
             rw [List.length_take]; exact Nat.min_eq_left hlen
           simp only [take_grown _ _ _ _ _ hX, take_grown_twice _ _ _ _ _ _ _ hX,
             take_written _ _ _ _ _ _ _ hX])
    · rw [hgrow, e]
      simp only [growslice_put]
    · rw [hframe b (by omega) (by omega), e]
      simp (disch := omega) only [cell_put_ne]

theorem OVSDBContainer_spec (cr : OVNCentralSpec) (containerName : String)
    (containerCommand : List String) (m : Memory) (h : m.Loaded) :
    (OVSDBContainer cr containerName containerCommand m).2.readContainer
        (OVSDBContainer cr containerName containerCommand m).1
      = (Stubs.OVSDBContainer cr containerName containerCommand m.templates).1 ∧
    m.next ≤ (OVSDBContainer cr containerName containerCommand m).2.next ∧
    (OVSDBContainer cr containerName containerCommand m).2.growslice = m.growslice ∧
    (∀ b, b < m.next →
      (OVSDBContainer cr containerName containerCommand m).2.cell b = m.cell b) := by
  obtain ⟨h3, h0, _, _⟩ := h
  simp only [ovsdbContainerTpl] at h0
  generalize hc : m.container 0 = c0 at h0
  obtain ⟨f0, arr0, len0, cap0⟩ := c0
  cases arr0 with
  | none =>
    refine ⟨?_, ?_, ?_, fun b hb => ?_⟩ <;>
      simp (disch := omega) only [OVSDBContainer, DeepCopyContainer, Memory.setContainer,
        ovsdbContainerTpl, hc, alloc_eq_put, store_eq_put, next_put, growslice_put, cell_put_ne,
        container_put_ne, container_put_eq, envArray_put_ne, envArray_put_eq,
        Memory.readContainer, Memory.readContainerCell, Memory.readEnv, Memory.templates,
        Stubs.OVSDBContainer, Container.DeepCopy, Nat.le_add_right]
  | some a0 =>
    simp only [Memory.envOk] at h0
    refine ⟨?_, ?_, ?_, fun b hb => ?_⟩ <;>
      simp (disch := omega) only [OVSDBContainer, DeepCopyContainer, Memory.setContainer,
        ovsdbContainerTpl, hc, alloc_eq_put, store_eq_put, next_put, growslice_put, cell_put_ne,
        container_put_ne, container_put_eq, envArray_put_ne, envArray_put_eq,
        Memory.readContainer, Memory.readContainerCell, Memory.readEnv, Memory.templates,
        Stubs.OVSDBContainer, Container.DeepCopy, take_padded, List.take_take, Nat.min_self]
    omega

theorem ServerService_spec (cr : OVNCentral) (scheme : Scheme) (index : Int) (m : Memory) :
    (ServerService cr scheme index m).2.readService (ServerService cr scheme index m).1
      = Stubs.ServerService cr scheme index ∧
    m.next ≤ (ServerService cr scheme index m).2.next ∧
    (ServerService cr scheme index m).2.growslice = m.growslice ∧
    (∀ b, b < m.next → (ServerService cr scheme index m).2.cell b = m.cell b) := by
  generalize hr : ServerService cr scheme index m = r
  unfold ServerService at hr
  lift_lets at hr
  extract_lets new service m1 m2 m3 m4 m5 m6 m7 m8 m9 m10 at hr
  have e : new = new := rfl
  conv at e =>
    rhs
    simp (disch := omega) only [new, alloc_eq_put, store_eq_put, next_put, growslice_put, Memory.setService,
    service_put_eq, service_put_ne, put_put_same]
  clear_value new
  subst e
  have e : service = service := rfl
  conv at e =>
    rhs
    simp (disch := omega) only [service, alloc_eq_put, store_eq_put, next_put, growslice_put, Memory.setService,
    service_put_eq, service_put_ne, put_put_same]
  clear_value service
  subst e
  have e : m1 = m1 := rfl
  conv at e =>
    rhs
    simp (disch := omega) only [m1, alloc_eq_put, store_eq_put, next_put, growslice_put, Memory.setService,
    service_put_eq, service_put_ne, put_put_same]
  clear_value m1
  subst e
  have e : m2 = m2 := rfl
  conv at e =>
    rhs
    simp (disch := omega) only [m2, alloc_eq_put, store_eq_put, next_put, growslice_put, Memory.setService,
    service_put_eq, service_put_ne, put_put_same]
  clear_value m2
  subst e
  have e : m3 = m3 := rfl
  conv at e =>
    rhs
    simp (disch := omega) only [m3, alloc_eq_put, store_eq_put, next_put, growslice_put, Memory.setService,
    service_put_eq, service_put_ne, put_put_same]
  clear_value m3
  subst e
  have e : m4 = m4 := rfl
  conv at e =>
    rhs
    simp (disch := omega) only [m4, alloc_eq_put, store_eq_put, next_put, growslice_put, Memory.setService,
    service_put_eq, service_put_ne, put_put_same]
  clear_value m4
  subst e
  have e : m5 = m5 := rfl
  conv at e =>
    rhs
    simp (disch := omega) only [m5, alloc_eq_put, store_eq_put, next_put, growslice_put, Memory.setService,
    service_put_eq, service_put_ne, put_put_same]
  clear_value m5
  subst e
  have e : m6 = m6 := rfl
  conv at e =>
    rhs
    simp (disch := omega) only [m6, alloc_eq_put, store_eq_put, next_put, growslice_put, Memory.setService,
    service_put_eq, service_put_ne, put_put_same]
  clear_value m6
  subst e
  have e : m7 = m7 := rfl
  conv at e =>
    rhs
    simp (disch := omega) only [m7, alloc_eq_put, store_eq_put, next_put, growslice_put, Memory.setService,
    service_put_eq, service_put_ne, put_put_same]
  clear_value m7
  subst e
  have e : m8 = m8 := rfl
  conv at e =>
    rhs
    simp (disch := omega) only [m8, alloc_eq_put, store_eq_put, next_put, growslice_put, Memory.setService,
    service_put_eq, service_put_ne, put_put_same]
  clear_value m8
  subst e
  have e : m9 = m9 := rfl
  conv at e =>
    rhs
    simp (disch := omega) only [m9, alloc_eq_put, store_eq_put, next_put, growslice_put, Memory.setService,
    service_put_eq, service_put_ne, put_put_same]
  clear_value m9
  have hp : m.next < m9.next := by
    rw [e]
    simp only [next_put]
    omega
  have ht : m9.tightOwners (m9.service m.next).OwnerReferences := by
    rw [e]
    simp (disch := omega) only [service_put_eq, Memory.tightOwners, and_self]
  have hne : (m9.service m.next).OwnerReferences.array ≠ some m.next := by
    rw [e]
    simp (disch := omega) only [service_put_eq, ne_eq, reduceCtorEq, not_false_eq_true]
  have hnil : (m9.service m.next).OwnerReferences.array = none := by
    rw [e]
    simp (disch := omega) only [service_put_eq]
  obtain ⟨hread, hnext, hgrow, hframe⟩ :=
    SetControllerReferenceService_spec cr m.next scheme m9 hp ht hne
  subst hr
  simp only [m10]
  refine ⟨hread.trans ?_, by omega, ?_, fun b hb => ?_⟩
  · subst e
    simp only [service_put_eq, Memory.readOwners, Stubs.ServerService]
  · rw [hgrow, e]
    simp only [growslice_put]
  · rw [hframe b (by omega) (by omega) (by rw [hnil]; exact fun hh => nomatch hh), e]
    simp (disch := omega) only [cell_put_ne]

theorem PVC_spec (cr : OVNCentral) (scheme : Scheme) (index : Int) (m : Memory)
    (h : m.Loaded) :
    (PVC cr scheme index m).2.readClaim (PVC cr scheme index m).1
      = (Stubs.PVC cr scheme index m.templates).1 ∧
    m.next ≤ (PVC cr scheme index m).2.next ∧
    (PVC cr scheme index m).2.growslice = m.growslice ∧
    (∀ b, b < m.next → (PVC cr scheme index m).2.cell b = m.cell b) := by
  obtain ⟨h3, _, h1, _⟩ := h
  simp only [pvcTpl] at h1
  generalize hc : m.claim 1 = c0 at h1
  obtain ⟨f0, arr0, len0, cap0⟩ := c0
  generalize hr : PVC cr scheme index m = r
  unfold PVC at hr
  lift_lets at hr
  extract_lets copy pvc m1 m2 m3 m4 m5 m6 at hr
  have hwf : (arr0 = none ∧ len0 = 0 ∧ cap0 = 0) ∨
      (∃ a0, arr0 = some a0 ∧ a0 < m.next ∧ len0 ≤ (m.ownerArray a0).length) := by
    cases arr0 with
    | none => exact Or.inl ⟨rfl, h1.1, h1.2⟩
    | some a0 => exact Or.inr ⟨a0, rfl, h1.1, h1.2⟩
  clear h1
  rcases hwf with ⟨rfl, rfl, rfl⟩ | ⟨a0, rfl, ha0, hlen⟩
  all_goals
    have e : copy = copy := rfl
    conv at e =>
      rhs
      simp (disch := omega) only [copy, alloc_eq_put, store_eq_put, next_put, growslice_put, Memory.setClaim, DeepCopyClaim,
      pvcTpl, claim_put_eq, claim_put_ne, ownerArray_put_eq, ownerArray_put_ne, put_put_same, hc,
      Memory.readOwners, take_padded]
    clear_value copy
    subst e
    have e : pvc = pvc := rfl
    conv at e =>
      rhs
      simp (disch := omega) only [pvc, alloc_eq_put, store_eq_put, next_put, growslice_put, Memory.setClaim, DeepCopyClaim,
      pvcTpl, claim_put_eq, claim_put_ne, ownerArray_put_eq, ownerArray_put_ne, put_put_same, hc,
      Memory.readOwners, take_padded]
    clear_value pvc
    subst e
    have e : m1 = m1 := rfl
    conv at e =>
      rhs
      simp (disch := omega) only [m1, alloc_eq_put, store_eq_put, next_put, growslice_put, Memory.setClaim, DeepCopyClaim,
      pvcTpl, claim_put_eq, claim_put_ne, ownerArray_put_eq, ownerArray_put_ne, put_put_same, hc,
      Memory.readOwners, take_padded]
    clear_value m1
    subst e
    have e : m2 = m2 := rfl
    conv at e =>
      rhs
      simp (disch := omega) only [m2, alloc_eq_put, store_eq_put, next_put, growslice_put, Memory.setClaim, DeepCopyClaim,
      pvcTpl, claim_put_eq, claim_put_ne, ownerArray_put_eq, ownerArray_put_ne, put_put_same, hc,
      Memory.readOwners, take_padded]
    clear_value m2
    subst e
    have e : m3 = m3 := rfl
    conv at e =>
      rhs
      simp (disch := omega) only [m3, alloc_eq_put, store_eq_put, next_put, growslice_put, Memory.setClaim, DeepCopyClaim,
      pvcTpl, claim_put_eq, claim_put_ne, ownerArray_put_eq, ownerArray_put_ne, put_put_same, hc,
      Memory.readOwners, take_padded]
    clear_value m3
    subst e
    have e : m4 = m4 := rfl
    conv at e =>
      rhs
      simp (disch := omega) only [m4, alloc_eq_put, store_eq_put, next_put, growslice_put, Memory.setClaim, DeepCopyClaim,
      pvcTpl, claim_put_eq, claim_put_ne, ownerArray_put_eq, ownerArray_put_ne, put_put_same, hc,
      Memory.readOwners, take_padded]
    clear_value m4
    subst e
  all_goals
    have e : m5 = m5 := rfl
    conv at e =>
      rhs
      simp (disch := omega) only [m5, alloc_eq_put, store_eq_put, next_put, growslice_put, Memory.setClaim, DeepCopyClaim,
      pvcTpl, claim_put_eq, claim_put_ne, ownerArray_put_eq, ownerArray_put_ne, put_put_same, hc,
      Memory.readOwners, take_padded]
    clear_value m5
    have hp : m.next < m5.next := by
      rw [e]
      simp only [next_put]
      omega
    have ht : m5.tightOwners (m5.claim m.next).OwnerReferences := by
      rw [e]
      simp (disch := omega) only [claim_put_eq, claim_put_ne, ownerArray_put_eq,
        ownerArray_put_ne, Memory.tightOwners, and_self, next_put, List.length_take, and_true]
      first
        | done
        | exact ⟨by omega, Nat.min_eq_left hlen⟩
    have hne : (m5.claim m.next).OwnerReferences.array ≠ some m.next := by
      rw [e]
      simp (disch := omega) only [claim_put_eq, claim_put_ne, ne_eq, reduceCtorEq,
        not_false_eq_true, Option.some.injEq]
      first
        | done
        | omega
    have hold : ∀ b, b < m.next → (m5.claim m.next).OwnerReferences.array ≠ some b := by
      intro b hb
      rw [e]
      simp (disch := omega) only [claim_put_eq, claim_put_ne, ne_eq, reduceCtorEq,
        not_false_eq_true, Option.some.injEq]
      first
        | done
        | omega
    obtain ⟨hread, hnext, hgrow, hframe⟩ :=
      SetControllerReferenceClaim_spec cr m.next scheme m5 hp ht hne
    subst hr
    simp only [m6]
    refine ⟨hread.trans ?_, by omega, ?_, fun b hb => ?_⟩
    · subst e
      simp (disch := omega) only [claim_put_eq, claim_put_ne, ownerArray_put_eq,
        ownerArray_put_ne, Memory.readOwners, Stubs.PVC, Memory.templates, Memory.readClaim,
        pvcTpl, hc, PersistentVolumeClaim.DeepCopy, List.take_take, Nat.min_self]
    · rw [hgrow, e]
      simp only [growslice_put]
    · rw [hframe b (by omega) (by omega) (hold b hb), e]
      simp (disch := omega) only [cell_put_ne]

theorem run_spec (c : Call) (m : Memory) (h : m.Loaded) :
    readResult c (run c m).2 (run c m).1 = (c.run m.templates).1 ∧
    m.next ≤ (run c m).2.next ∧
    (run c m).2.growslice = m.growslice ∧
    (∀ b, b < m.next → (run c m).2.cell b = m.cell b) := by
  cases c with
  | OVSDBContainer cr containerName containerCommand =>
    obtain ⟨h1, h2, h3, h4⟩ := OVSDBContainer_spec cr containerName containerCommand m h
    exact ⟨congrArg Object.container h1, h2, h3, h4⟩
  | ServerService cr scheme index =>
    obtain ⟨h1, h2, h3, h4⟩ := ServerService_spec cr scheme index m
    exact ⟨congrArg Object.service h1, h2, h3, h4⟩
  | PVC cr scheme index =>
    obtain ⟨h1, h2, h3, h4⟩ := PVC_spec cr scheme index m h
    exact ⟨congrArg Object.claim h1, h2, h3, h4⟩
  | BootstrapPod cr scheme pvc =>
    obtain ⟨h1, h2, h3, h4⟩ := BootstrapPod_spec cr scheme pvc m h
    exact ⟨congrArg Object.pod h1, h2, h3, h4⟩

theorem envOk_of_frame (m m2 : Memory) (s : Slice) (hn : m.next ≤ m2.next)
    (hf : ∀ b, b < m.next → m2.cell b = m.cell b) (h : m.envOk s) :
    m2.envOk s ∧ m2.readEnv s = m.readEnv s := by
  unfold Memory.envOk at h ⊢
  unfold Memory.readEnv
  cases hs : s.array with
  | none =>
    rw [hs] at h
    exact ⟨h, rfl⟩
  | some a =>
    rw [hs] at h
    have ha : m2.envArray a = m.envArray a := congrArg Cell.asEnvArray (hf a h.1)
    simp only [ha]
    exact ⟨⟨by omega, h.2⟩, trivial⟩

theorem ownersOk_of_frame (m m2 : Memory) (s : Slice) (hn : m.next ≤ m2.next)
    (hf : ∀ b, b < m.next → m2.cell b = m.cell b) (h : m.ownersOk s) :
    m2.ownersOk s ∧ m2.readOwners s = m.readOwners s := by
  unfold Memory.ownersOk at h ⊢
  unfold Memory.readOwners
  cases hs : s.array with
  | none =>
    rw [hs] at h
    exact ⟨h, rfl⟩
  | some a =>
    rw [hs] at h
    have ha : m2.ownerArray a = m.ownerArray a := congrArg Cell.asOwnerArray (hf a h.1)
    simp only [ha]
    exact ⟨⟨by omega, h.2⟩, trivial⟩

theorem loaded_of_frame (m m2 : Memory) (h : m.Loaded) (hn : m.next ≤ m2.next)
    (hf : ∀ b, b < m.next → m2.cell b = m.cell b) :
    m2.Loaded ∧ m2.templates = m.templates := by
  obtain ⟨h3, h0, h1, h2⟩ := h
  have c0 : m2.container ovsdbContainerTpl = m.container ovsdbContainerTpl :=
    congrArg Cell.asContainer (hf 0 (by omega))
  have c1 : m2.claim pvcTpl = m.claim pvcTpl := congrArg Cell.asClaim (hf 1 (by omega))
  have c2 : m2.container bootstrapContainerTpl = m.container bootstrapContainerTpl :=
    congrArg Cell.asContainer (hf 2 (by omega))
  obtain ⟨e0, r0⟩ := envOk_of_frame m m2 _ hn hf h0
  obtain ⟨e1, r1⟩ := ownersOk_of_frame m m2 _ hn hf h1
  obtain ⟨e2, r2⟩ := envOk_of_frame m m2 _ hn hf h2
  refine ⟨⟨by omega, ?_, ?_, ?_⟩, ?_⟩
  · rw [c0]; exact e0
  · rw [c1]; exact e1
  · rw [c2]; exact e2
  · simp only [Memory.templates, Memory.readContainer, Memory.readContainerCell,
      Memory.readClaim, c0, c1, c2, r0, r1, r2]

theorem runAll_spec (earlier : List Call) (m : Memory) (h : m.Loaded) :
    (runAll earlier m).Loaded ∧
    (runAll earlier m).templates = m.templates ∧
    m.next ≤ (runAll earlier m).next ∧
    (∀ b, b < m.next → (runAll earlier m).cell b = m.cell b) := by
  induction earlier generalizing m with
  | nil => exact ⟨h, rfl, Nat.le_refl _, fun _ _ => rfl⟩
  | cons c rest ih =>
    obtain ⟨_, hn, _, hf⟩ := run_spec c m h
    obtain ⟨hl, ht⟩ := loaded_of_frame m (run c m).2 h hn hf
    obtain ⟨hl2, ht2, hn2, hf2⟩ := ih (run c m).2 hl
    refine ⟨hl2, ht2.trans ht, by simp only [runAll]; omega, fun b hb => ?_⟩
    simp only [runAll]
    rw [hf2 b (by omega), hf b hb]

/-- C12: over a memory that holds the loaded templates, each of
`OVSDBContainer`, `ServerService`, `PVC` and `BootstrapPod` writes only to
cells it allocates itself: every cell that existed before a call, and so the
three template variables and the arrays their slices point at, is the same
after the call and after any sequence of calls.  The object a call returns is
the one the value-level builder computes from the template values, so it is
the same after any sequence of earlier calls to any of the four, the same
call made twice in a row returns structurally equal objects, and so do equal
calls against any two memories that hold the same template values. -/
theorem builders_deterministic_over_shared_memory (m : Memory) (h : m.Loaded) (c : Call)
    (earlier : List Call) :
    (∀ b, b < m.next → (run c m).2.cell b = m.cell b) ∧
    (run c m).2.templates = m.templates ∧
    (∀ b, b < m.next → (runAll earlier m).cell b = m.cell b) ∧
    (runAll earlier m).templates = m.templates ∧
    readResult c (run c m).2 (run c m).1 = (c.run m.templates).1 ∧
    readResult c (run c (runAll earlier m)).2 (run c (runAll earlier m)).1
      = readResult c (run c m).2 (run c m).1 ∧
    readResult c (run c (run c m).2).2 (run c (run c m).2).1
      = readResult c (run c m).2 (run c m).1 ∧
    (∀ m2 : Memory, m2.Loaded → m2.templates = m.templates →
      readResult c (run c m2).2 (run c m2).1 = readResult c (run c m).2 (run c m).1) := by
  obtain ⟨hread, hn, _, hf⟩ := run_spec c m h
  obtain ⟨hl, ht⟩ := loaded_of_frame m (run c m).2 h hn hf
  obtain ⟨hl2, ht2, _, hf2⟩ := runAll_spec earlier m h
  refine ⟨hf, ht, hf2, ht2, hread, ?_, ?_, fun m2 hm2 hm2t => ?_⟩
  · rw [(run_spec c (runAll earlier m) hl2).1, ht2, hread]
  · rw [(run_spec c (run c m).2 hl).1, ht, hread]
  · rw [(run_spec c m2 hm2).1, hm2t, hread]

/-- Witness of C12: the demonstration memory holds the templates (with spare
capacity behind the environment slices), and there the bootstrap pod built
after three earlier calls equals the one built first, while the bootstrap
template still reads as it did. -/
theorem builders_deterministic_over_shared_memory_witness :
    demoMemory.Loaded ∧
    demoMemory.templates.bootstrapContainerTpl.Env = [{ Name := "OVN_RUNDIR", Value := "/ovn" }] ∧
    (runAll demoEarlier demoMemory).templates = demoMemory.templates ∧
    readResult demoCall (run demoCall (runAll demoEarlier demoMemory)).2
        (run demoCall (runAll demoEarlier demoMemory)).1
      = readResult demoCall (run demoCall demoMemory).2 (run demoCall demoMemory).1 :=
  have hl : demoMemory.Loaded := by
    refine ⟨by decide, ?_, ?_, ?_⟩
    · exact ⟨by decide, by decide⟩
    · exact ⟨by decide, by decide⟩
    · exact ⟨by decide, by decide⟩
  have hw := builders_deterministic_over_shared_memory demoMemory hl demoCall demoEarlier
  ⟨hl, by decide, hw.2.2.2.1, hw.2.2.2.2.2.1⟩

/-- In the demonstration memory the second `append` of `BootstrapPod` finds
spare capacity and writes in place: the two containers of the pod hold slices
over the same backing array, of lengths 3 and 5. -/
theorem demo_bootstrap_append_in_place :
    ((run demoCall demoMemory).2.pod (run demoCall demoMemory).1).Containers.map (fun c => c.Env)
      = [ { array := some 9, len := 3, cap := 6 }, { array := some 9, len := 5, cap := 6 } ] := by
  decide

/-- Every set of template values sits in a memory that holds the templates
and reads back as those values. -/
theorem ofTemplates_loaded (g : Templates) (growslice : Nat → Nat → Nat) :
    (Memory.ofTemplates g growslice).Loaded ∧ (Memory.ofTemplates g growslice).templates = g := by
  have h3 : (3 : Nat) ≤ 6 := by decide
  have h3l : (3 : Nat) < 6 := by decide
  have h4l : (4 : Nat) < 6 := by decide
  have h5l : (5 : Nat) < 6 := by decide
  refine ⟨⟨h3, ⟨h3l, Nat.le_refl _⟩, ⟨h4l, Nat.le_refl _⟩, ⟨h5l, Nat.le_refl _⟩⟩, ?_⟩
  simp only [Memory.templates, Memory.readContainer, Memory.readContainerCell, Memory.readClaim,
    Memory.readEnv, Memory.readOwners]
  show ({ ovsdbContainerTpl :=
            { g.ovsdbContainerTpl with
              Env := List.take g.ovsdbContainerTpl.Env.length g.ovsdbContainerTpl.Env }
          pvcTpl :=
            { g.pvcTpl with
              ObjectMeta := { g.pvcTpl.ObjectMeta with
                OwnerReferences := List.take g.pvcTpl.ObjectMeta.OwnerReferences.length
                  g.pvcTpl.ObjectMeta.OwnerReferences } }
          bootstrapContainerTpl :=
            { g.bootstrapContainerTpl with
              Env := List.take g.bootstrapContainerTpl.Env.length g.bootstrapContainerTpl.Env } }
        : Templates) = g
  simp only [List.take_length]

/-- The memory model can tell a write through a template from a write to a
copy: upserting through the owner-references slice of the claim template
itself overwrites the array of the template, which then reads differently. -/
theorem demo_write_through_template_slice :
    demoMemory.readOwners (demoMemory.claim pvcTpl).OwnerReferences
      = [{ APIVersion := "v1", Kind := "ConfigMap", Name := "seed", UID := "uid-seed" }] ∧
    (upsertOwnerRef demoRef (demoMemory.claim pvcTpl).OwnerReferences demoMemory).2.readOwners
        (demoMemory.claim pvcTpl).OwnerReferences
      = [{ APIVersion := "v1", Kind := "ConfigMap", Name := "seed", UID := "uid-other" }] := by
  decide

end Heap

end Stubs
